import Mathlib

/-!
Verification development for the nestjs-mongodb-logger core:
a shallow embedding of the BatchManager, ConnectionManager,
HealthCheckService and MongoLoggerService, with theorems about the
batching, flushing, retry, dead-letter, circuit-breaker and health
logic.

JavaScript objects (the open-shaped log entries) are modelled as
ordered association lists of string keys to JSON-ish values; JS `Map`s
are modelled as ordered association lists with `Map.set` semantics;
`Date.now()` instants are `Nat` milliseconds; JS numbers used as
counters are `Nat`, and the float arithmetic of the health check is
modelled with exact rationals.
-/

namespace MongoLogger

/-- A JSON-ish runtime value, as stored in a log entry document.
Nested arrays and objects are carried opaquely by the `raw` constructor
as their serialized JSON text (no property of the core inspects inside
a nested value, only the serialized length matters, via
`estimateEntrySize`). -/
inductive JVal where
  | str (s : String)
  | num (n : Int)
  | boolean (b : Bool)
  | null
  | date (ms : Nat)
  | raw (json : String)
deriving Repr, BEq, DecidableEq

/-- A JS object: an ordered list of key/value fields (insertion order). -/
abbrev Doc := List (String × JVal)

/-- Property read `o[k]`: the value of the field named `k` (a JS
object holds each key at most once). -/
def getField : Doc → String → Option JVal
  | [], _ => none
  | kv :: rest, k => if kv.1 = k then some kv.2 else getField rest k

/-- JS object-literal update semantics: `{...d, k: v}` keeps the
original position of `k` when present, else appends the field at the
end. -/
def setField : Doc → String → JVal → Doc
  | [], k, v => [(k, v)]
  | kv :: rest, k, v =>
      if kv.1 = k then (k, v) :: rest else kv :: setField rest k v

/-- The rest-destructuring `const { _batchId: _, _retryCount: __, ...cleanEntry } = entry`
from `flushCollection`: every field except the two bookkeeping keys,
in their original order. -/
def stripBatchFields (d : Doc) : Doc :=
  d.filter (fun kv => kv.1 != "_batchId" && kv.1 != "_retryCount")

/-- `JSON.stringify` of a single value (modulo string escaping, which
the development never depends on). -/
def stringifyVal : JVal → String
  | .str s => "\"" ++ s ++ "\""
  | .num n => toString n
  | .boolean b => if b then "true" else "false"
  | .null => "null"
  | .date ms => "\"" ++ toString ms ++ "\""
  | .raw json => json

/-- Comma-separated serialization of object fields. -/
def stringifyFields : List (String × JVal) → String
  | [] => ""
  | [kv] => "\"" ++ kv.1 ++ "\":" ++ stringifyVal kv.2
  | kv :: kv2 :: rest =>
      "\"" ++ kv.1 ++ "\":" ++ stringifyVal kv.2 ++ ","
        ++ stringifyFields (kv2 :: rest)

/-- `JSON.stringify` of a document. -/
def stringifyDoc (d : Doc) : String :=
  "\x7b" ++ stringifyFields d ++ "\x7d"

/-- `estimateEntrySize`: `JSON.stringify(entry).length * 2`. -/
def estimateEntrySize (entry : Doc) : Nat :=
  (stringifyDoc entry).length * 2

/-! ### JS `Map` as an ordered association list -/

/-- `Map.get` (a JS `Map` holds each key at most once). -/
def mapFind {α : Type} : List (String × α) → String → Option α
  | [], _ => none
  | kv :: rest, k => if kv.1 = k then some kv.2 else mapFind rest k

/-- `Map.set`: overwrite in place when the key is present, else append. -/
def mapSet {α : Type} : List (String × α) → String → α → List (String × α)
  | [], k, v => [(k, v)]
  | kv :: rest, k, v =>
      if kv.1 = k then (k, v) :: rest else kv :: mapSet rest k v

/-- Mutation of the value stored under an existing key (a no-op when the
key is absent): models in-place field updates on `map.get(k)!`. -/
def mapUpdate {α : Type} : List (String × α) → String → (α → α) →
    List (String × α)
  | [], _, _ => []
  | kv :: rest, k, f =>
      if kv.1 = k then (k, f kv.2) :: rest else kv :: mapUpdate rest k f

/-- `Map.delete`. -/
def mapDelete {α : Type} : List (String × α) → String → List (String × α)
  | [], _ => []
  | kv :: rest, k =>
      if kv.1 = k then rest else kv :: mapDelete rest k

/-! ### BatchManager data model (src/unnamed/part_004) -/

/-- The user-supplied options the BatchManager constructor reads.
`Option` models a possibly-absent key; the JS `||`-defaulting also
replaces `0` (falsy). -/
structure MongoLoggerConfig where
  batchSize? : Option Nat
  flushInterval? : Option Nat
  maxMemoryUsageMiB? : Option Nat
  defaultCollection? : Option String
deriving Repr, DecidableEq

/-- JS `x || d` for an optional number (`0` and `undefined` are falsy). -/
def jsOrNat (x : Option Nat) (d : Nat) : Nat :=
  match x with
  | some n => if n = 0 then d else n
  | none => d

/-- JS `x || d` for an optional string (`""` and `undefined` are falsy). -/
def jsOrStr (x : Option String) (d : String) : String :=
  match x with
  | some s => if s = "" then d else s
  | none => d

/-- The constants the constructor derives:
`batchSize = config.batchSize || 500`, `flushInterval = config.flushInterval || 5000`,
`maxMemoryUsage = (config.maxMemoryUsage || 100) * 1024 * 1024`. -/
structure BMConfig where
  batchSize : Nat
  flushInterval : Nat
  maxMemoryUsage : Nat
  defaultCollection? : Option String
deriving Repr, DecidableEq

/-- The BatchManager constructor's derivation of its constants. -/
def mkBMConfig (c : MongoLoggerConfig) : BMConfig :=
  { batchSize := jsOrNat c.batchSize? 500
    flushInterval := jsOrNat c.flushInterval? 5000
    maxMemoryUsage := (jsOrNat c.maxMemoryUsageMiB? 100) * 1024 * 1024
    defaultCollection? := c.defaultCollection? }

/-- `interface CollectionBatch`. -/
structure CollectionBatch where
  entries : List Doc
  lastFlush : Nat
  memorySize : Nat
deriving Repr, DecidableEq

/-- `interface BatchMetrics`. `averageBatchSize` is a JS float, modelled
as an exact rational; `lastFlushTime` is a `Date | null`. -/
structure BatchMetrics where
  totalEntriesProcessed : Nat
  totalBatchesFlushed : Nat
  totalFlushFailures : Nat
  totalRetries : Nat
  averageBatchSize : ℚ
  lastFlushTime : Option Nat
  currentMemoryUsage : Nat
  collectionsActive : Nat
deriving Repr, DecidableEq

/-- The mutable fields of the BatchManager instance. -/
structure BMState where
  batches : List (String × CollectionBatch)
  flushingCollections : List String
  retries : List (String × Nat)
  metrics : BatchMetrics
  isShuttingDown : Bool
deriving Repr, DecidableEq

/-- Sum of `memorySize` over all collection batches (the reduce in
`updateMetrics` and `shouldFlushDueToMemory`). -/
def sumMemory (bs : List (String × CollectionBatch)) : Nat :=
  (bs.map (fun kv => kv.2.memorySize)).sum

/-- Sum of `entries.length` over all collection batches. -/
def totalStagedEntries (bs : List (String × CollectionBatch)) : Nat :=
  (bs.map (fun kv => kv.2.entries.length)).sum

/-- `updateMetrics()`: recompute `currentMemoryUsage`, `collectionsActive`
and `averageBatchSize` from the batches map. -/
def updateMetrics (s : BMState) : BMState :=
  let totalEntries := totalStagedEntries s.batches
  { s with metrics :=
      { s.metrics with
          currentMemoryUsage := sumMemory s.batches
          collectionsActive := s.batches.length
          averageBatchSize :=
            if totalEntries > 0 then
              (totalEntries : ℚ) / (s.batches.length : ℚ)
            else 0 } }

/-- `getMetrics()`: `updateMetrics` then return a copy of the record. -/
def getMetrics (s : BMState) : BatchMetrics :=
  (updateMetrics s).metrics

/-- `entry.collection || this.config.defaultCollection || 'logs'`.
A non-string `collection` value is treated as absent (the interface
types it `string`). -/
def resolveCollection (cfg : BMConfig) (entry : Doc) : String :=
  let fromEntry : Option String :=
    match getField entry "collection" with
    | some (JVal.str s) => some s
    | _ => none
  jsOrStr fromEntry (jsOrStr cfg.defaultCollection? "logs")

/-- `shouldFlushDueToMemory()`: total staged memory has reached
`maxMemoryUsage`. -/
def shouldFlushDueToMemory (cfg : BMConfig) (s : BMState) : Bool :=
  decide (cfg.maxMemoryUsage ≤ sumMemory s.batches)

/-- The staging part of `addToBatch` (everything before the trigger
check): resolve the destination, stamp `_batchId`, lazily create the
collection batch, push the entry, add its estimated size, bump
`totalEntriesProcessed`, and `updateMetrics`. `uuid` is the fresh
`uuidv4()`, `now` is `Date.now()`. -/
def addToBatchStage (cfg : BMConfig) (s : BMState) (entry : Doc)
    (uuid : String) (now : Nat) : BMState :=
  let collection := resolveCollection cfg entry
  let batchEntry := setField entry "_batchId" (JVal.str uuid)
  let batches0 :=
    if (mapFind s.batches collection).isNone then
      mapSet s.batches collection
        { entries := [], lastFlush := now, memorySize := 0 }
    else s.batches
  let batches1 := mapUpdate batches0 collection (fun b =>
    { b with
        entries := b.entries ++ [batchEntry]
        memorySize := b.memorySize + estimateEntrySize batchEntry })
  updateMetrics
    { s with
        batches := batches1
        metrics :=
          { s.metrics with
              totalEntriesProcessed := s.metrics.totalEntriesProcessed + 1 } }

/-- The trigger condition `addToBatch` evaluates after staging:
`batch.entries.length >= this.batchSize || this.shouldFlushDueToMemory()`,
on the just-updated batch of the entry's resolved collection. -/
def addToBatchTriggers (cfg : BMConfig) (s : BMState) (collection : String) :
    Bool :=
  match mapFind s.batches collection with
  | some b =>
      decide (cfg.batchSize ≤ b.entries.length) || shouldFlushDueToMemory cfg s
  | none => false

/-! ### Flush model

Database calls and logger output are modelled as emitted effects; the
outcome of the single `insertMany` of a flush (and of `getDatabase`)
is an input parameter, since it is decided by the external driver. -/

/-- One element of a MongoDB `BulkWriteError`'s `writeErrors` list
(only the `index` field is read). -/
structure WriteErr where
  index : Nat
deriving Repr, DecidableEq

/-- How the try-block of `flushCollection` terminates: `getDatabase`
may throw before any insert, or `insertMany` may throw a
`BulkWriteError` (with its `writeErrors`) or any other error. -/
inductive FlushOutcome where
  | success
  | dbUnavailable
  | bulkWriteError (writeErrors : List WriteErr)
  | otherError
deriving Repr, DecidableEq

/-- A dead-letter record as built in `handleFlushError`:
`{ originalLog, errorDetails: { message: ... }, failedAt, sourceCollection }`. -/
structure DlqRecord where
  originalLog : Doc
  errorDetailsMessage : String
  failedAt : Nat
  sourceCollection : String
deriving Repr, DecidableEq

/-- Externally visible actions of the BatchManager. -/
inductive Effect where
  | dbInsertMany (collection : String) (docs : List Doc) (ordered : Bool)
  | dbInsertOne (collection : String) (doc : Doc)
  | dbInsertManyDlq (collection : String) (docs : List DlqRecord)
      (ordered : Bool)
  | logCritical (collection : String)
deriving Repr, DecidableEq

/-- `sendToDlq`: attempt an unordered bulk insert of the dead-letter
records into `` `${collectionName}_dlq` ``; when the insert (or the
`getDatabase` inside it) fails, only a critical log is emitted — the
records are dropped and no state changes either way. `dlqOk` tells
whether the attempt succeeded. -/
def sendToDlq (collectionName : String) (dlqEntries : List DlqRecord)
    (dlqOk : Bool) (s : BMState) : BMState × List Effect :=
  (s, Effect.dbInsertManyDlq (collectionName ++ "_dlq") dlqEntries false ::
      (if dlqOk then [] else [Effect.logCritical collectionName]))

/-- `handleFlushError`: classify the error. A `BulkWriteError` routes
exactly the entries at the reported indices to the DLQ; any other
error bumps the per-collection retry counter and `totalRetries` and
prepends the failed entries (with their sizes) back onto the live
batch. `now` is the `new Date()` used for `failedAt`. -/
def handleFlushError (collectionName : String) (failedEntries : List Doc)
    (error : FlushOutcome) (dlqOk : Bool) (now : Nat) (s : BMState) :
    BMState × List Effect :=
  match error with
  | .bulkWriteError writeErrors =>
      let failedIndexes := writeErrors.map (fun e => e.index)
      let dlqEntries :=
        (failedEntries.enum.filter
            (fun p => failedIndexes.contains p.1)).map
          (fun p =>
            { originalLog := p.2
              errorDetailsMessage :=
                "Bulk write operation failed for this log entry."
              failedAt := now
              sourceCollection := collectionName })
      if dlqEntries.length > 0 then sendToDlq collectionName dlqEntries dlqOk s
      else (s, [])
  | _ =>
      let currentRetries := (mapFind s.retries collectionName).getD 0
      let batches1 := mapUpdate s.batches collectionName (fun liveBatch =>
        { liveBatch with
            entries := failedEntries ++ liveBatch.entries
            memorySize := liveBatch.memorySize +
              (failedEntries.map estimateEntrySize).sum })
      ({ s with
          retries := mapSet s.retries collectionName (currentRetries + 1)
          metrics :=
            { s.metrics with totalRetries := s.metrics.totalRetries + 1 }
          batches := batches1 }, [])

/-- The synchronous entry checks of `flushCollection` (steps before the
swap, all executed without yielding): skip when the circuit is open,
when a flush for this collection is in progress, or when the batch is
missing or empty; otherwise return the batch captured for this flush. -/
def flushGate (circuitOpen : Bool) (s : BMState) (collectionName : String) :
    Option CollectionBatch :=
  if circuitOpen then none
  else if s.flushingCollections.contains collectionName then none
  else
    match mapFind s.batches collectionName with
    | none => none
    | some batchToFlush =>
        if batchToFlush.entries.length = 0 then none else some batchToFlush

/-- The atomic swap of `flushCollection` plus the insertion into the
flush-in-progress set (still synchronous, before the first `await`):
replace the live batch with a fresh empty one whose `lastFlush` is
`Date.now()`. -/
def flushSwapStep (now : Nat) (s : BMState) (collectionName : String) :
    BMState :=
  { s with
      batches := mapSet s.batches collectionName
        { entries := [], lastFlush := now, memorySize := 0 }
      flushingCollections := collectionName :: s.flushingCollections }

/-- The remainder of `flushCollection` once its awaits resume: it runs
on the then-current state `s` (concurrent submits may have extended
it) but on the `captured` entries taken at the swap. Strips the
bookkeeping fields, attempts the unordered bulk insert, updates
metrics or classifies the failure, and removes the collection from
the flush-in-progress set. -/
def flushFinish (outcome : FlushOutcome) (dlqOk : Bool) (now : Nat)
    (s : BMState) (collectionName : String) (captured : List Doc) :
    BMState × List Effect :=
  let cleanEntries := captured.map stripBatchFields
  let step : BMState × List Effect :=
    match outcome with
    | .success =>
        ({ s with
            metrics :=
              { s.metrics with
                  totalBatchesFlushed := s.metrics.totalBatchesFlushed + 1
                  lastFlushTime := some now }
            retries := mapDelete s.retries collectionName },
         [Effect.dbInsertMany collectionName cleanEntries false])
    | .dbUnavailable =>
        let s2 := { s with
          metrics :=
            { s.metrics with
                totalFlushFailures := s.metrics.totalFlushFailures + 1 } }
        handleFlushError collectionName captured FlushOutcome.dbUnavailable
          dlqOk now s2
    | e =>
        let s2 := { s with
          metrics :=
            { s.metrics with
                totalFlushFailures := s.metrics.totalFlushFailures + 1 } }
        let r := handleFlushError collectionName captured e dlqOk now s2
        (r.1, Effect.dbInsertMany collectionName cleanEntries false :: r.2)
  ({ step.1 with
      flushingCollections := step.1.flushingCollections.erase collectionName },
   step.2)

/-- `flushCollection` with no interleaved work during its awaits:
gate, atomic swap, then the post-await remainder on the swapped state. -/
def flushCollection (circuitOpen : Bool) (outcome : FlushOutcome)
    (dlqOk : Bool) (now : Nat) (s : BMState) (collectionName : String) :
    BMState × List Effect :=
  match flushGate circuitOpen s collectionName with
  | none => (s, [])
  | some batchToFlush =>
      flushFinish outcome dlqOk now (flushSwapStep now s collectionName)
        collectionName batchToFlush.entries

/-- `flushEntry` (the shutdown path of `addToBatch`): a direct single
insert, bypassing batching; a failure only logs. -/
def flushEntry (cfg : BMConfig) (entry : Doc) : List Effect :=
  [Effect.dbInsertOne (resolveCollection cfg entry) entry]

/-- `addToBatch` in full: the shutdown bypass, the staging step, and —
when the trigger condition fires — an awaited `flushCollection`. -/
def addToBatch (cfg : BMConfig) (circuitOpen : Bool) (outcome : FlushOutcome)
    (dlqOk : Bool) (s : BMState) (entry : Doc) (uuid : String) (now : Nat) :
    BMState × List Effect :=
  if s.isShuttingDown then (s, flushEntry cfg entry)
  else
    let collection := resolveCollection cfg entry
    let s1 := addToBatchStage cfg s entry uuid now
    if addToBatchTriggers cfg s1 collection then
      flushCollection circuitOpen outcome dlqOk now s1 collection
    else (s1, [])

/-- Sequential composition of `flushCollection` over a list of
collection names, with a per-collection outcome assignment. -/
def flushList (circuitOpen : Bool) (outcomes : String → FlushOutcome)
    (dlqOk : Bool) (now : Nat) (s : BMState) :
    List String → BMState × List Effect
  | [] => (s, [])
  | n :: rest =>
      let r1 := flushCollection circuitOpen (outcomes n) dlqOk now s n
      let r2 := flushList circuitOpen outcomes dlqOk now r1.1 rest
      (r2.1, r1.2 ++ r2.2)

/-- `flushAll`: flush every collection currently in the batches map
(`Promise.allSettled` over `flushCollection` for each key; modelled
sequentially — flushes of distinct collections touch disjoint state). -/
def flushAll (circuitOpen : Bool) (outcomes : String → FlushOutcome)
    (dlqOk : Bool) (now : Nat) (s : BMState) : BMState × List Effect :=
  flushList circuitOpen outcomes dlqOk now s (s.batches.map (fun kv => kv.1))

/-! ### Concurrency and invariant vocabulary -/

/-- A sequence of concurrent `submit` staging steps: each item is the
submitted entry together with its fresh `uuidv4()` and its
`Date.now()`. -/
def applySubmits (cfg : BMConfig) : List (Doc × String × Nat) → BMState →
    BMState
  | [], s => s
  | (e, u, t) :: rest, s =>
      applySubmits cfg rest (addToBatchStage cfg s e u t)

/-- The batch entries that a sequence of submits routes into a given
collection, in submission order. -/
def routedEntries (cfg : BMConfig) (collectionName : String) :
    List (Doc × String × Nat) → List Doc
  | [] => []
  | (e, u, _) :: rest =>
      if resolveCollection cfg e = collectionName then
        setField e "_batchId" (JVal.str u) ::
          routedEntries cfg collectionName rest
      else routedEntries cfg collectionName rest

/-- The `_batchId` stamp of a batched entry. -/
def batchIdOf (d : Doc) : Option JVal :=
  getField d "_batchId"

/-- The per-batch memory-accounting invariant: every collection
batch's `memorySize` is the sum of the estimated sizes of its staged
entries. -/
def BatchSizeInv (s : BMState) : Prop :=
  ∀ kv ∈ s.batches,
    kv.2.memorySize = (kv.2.entries.map estimateEntrySize).sum

/-- Total estimated size of all staged entries across all batches. -/
def totalEstimatedSize (bs : List (String × CollectionBatch)) : Nat :=
  (bs.map (fun kv => (kv.2.entries.map estimateEntrySize).sum)).sum

/-- Modelled from the spec: the dead-letter records §4.2 prescribes —
pair every entry of the failed batch with its index, keep exactly the
reported indices, and wrap each kept entry. Used only to compare the
specified rule against `handleFlushError`. -/
def dlqRecordsSpec (collectionName : String) (failedEntries : List Doc)
    (indices : List Nat) (now : Nat) : List DlqRecord :=
  ((List.range failedEntries.length).zip failedEntries).filterMap
    (fun p =>
      if indices.contains p.1 then
        some
          { originalLog := p.2
            errorDetailsMessage :=
              "Bulk write operation failed for this log entry."
            failedAt := now
            sourceCollection := collectionName }
      else none)

/-! ### ConnectionManager model (src/src/core/connection-manager.ts) -/

/-- `enum CircuitBreakerState`. -/
inductive CircuitBreakerState where
  | CLOSED
  | OPEN
  | HALF_OPEN
deriving Repr, DecidableEq

/-- `enum ConnectionStatus`. -/
inductive ConnectionStatus where
  | DISCONNECTED
  | CONNECTING
  | CONNECTED
  | RECONNECTING
deriving Repr, DecidableEq

/-- The connection metrics record. -/
structure ConnMetrics where
  connectionSuccesses : Nat
  connectionFailures : Nat
  reconnects : Nat
  lastConnectionTime : Option Nat
  lastDisconnectTime : Option Nat
deriving Repr, DecidableEq

/-- The mutable fields of the ConnectionManager instance (`hasDb`
models `this.db !== null`). -/
structure CMState where
  hasDb : Bool
  status : ConnectionStatus
  circuitState : CircuitBreakerState
  failureCount : Nat
  lastFailureTime : Option Nat
  metrics : ConnMetrics
deriving Repr, DecidableEq

/-- `private readonly failureThreshold = 5`. -/
def failureThreshold : Nat := 5

/-- `private readonly openDuration = 30000`. -/
def openDuration : Nat := 30000

/-- `isCircuitOpen()`. -/
def isCircuitOpen (s : CMState) : Bool :=
  s.circuitState = CircuitBreakerState.OPEN

/-- How `getDatabase` proceeds after the circuit-breaker gate:
fail fast with the circuit-open error, return the cached handle, wait
for an in-flight attempt, or start a connect attempt. -/
inductive AcquireResult where
  | circuitOpenError
  | cachedDb
  | waitForConnection
  | connectAttempt
deriving Repr, DecidableEq

/-- The synchronous dispatch of `getDatabase` after the breaker gate. -/
def acquireDispatch (s : CMState) : CMState × AcquireResult :=
  if s.hasDb ∧ s.status = ConnectionStatus.CONNECTED then
    (s, AcquireResult.cachedDb)
  else if s.status = ConnectionStatus.CONNECTING ∨
      s.status = ConnectionStatus.RECONNECTING then
    (s, AcquireResult.waitForConnection)
  else (s, AcquireResult.connectAttempt)

/-- The synchronous prefix of `getDatabase`, including the breaker gate:
when the circuit is OPEN, either throw the circuit-open error (no
driver call, no state change) or — when strictly more than
`openDuration` ms have passed since `lastFailureTime` — move to
HALF_OPEN and continue; then dispatch on the connection status.
`now` is `Date.now()`; JS `Date.now() - (lastFailureTime || 0)` is
the truncated subtraction `now - (lastFailureTime).getD 0`. -/
def getDatabaseGate (now : Nat) (s : CMState) : CMState × AcquireResult :=
  if s.circuitState = CircuitBreakerState.OPEN then
    if openDuration < now - (s.lastFailureTime.getD 0) then
      acquireDispatch { s with circuitState := CircuitBreakerState.HALF_OPEN }
    else (s, AcquireResult.circuitOpenError)
  else acquireDispatch s

/-- `handleConnectionSuccess()`. -/
def handleConnectionSuccess (now : Nat) (s : CMState) : CMState :=
  { s with
      circuitState := CircuitBreakerState.CLOSED
      failureCount := 0
      lastFailureTime := none
      status := ConnectionStatus.CONNECTED
      metrics :=
        { s.metrics with
            connectionSuccesses := s.metrics.connectionSuccesses + 1
            lastConnectionTime := some now } }

/-- `handleConnectionFailure(error)`: count the failure, stamp the
time, disconnect, and open the breaker when the trial of a HALF_OPEN
breaker failed or the failure count reached the threshold. -/
def handleConnectionFailure (now : Nat) (s : CMState) : CMState :=
  let s1 := { s with
      failureCount := s.failureCount + 1
      lastFailureTime := some now
      status := ConnectionStatus.DISCONNECTED
      metrics :=
        { s.metrics with
            connectionFailures := s.metrics.connectionFailures + 1 } }
  if s1.circuitState = CircuitBreakerState.HALF_OPEN then
    { s1 with circuitState := CircuitBreakerState.OPEN }
  else if failureThreshold ≤ s1.failureCount then
    { s1 with circuitState := CircuitBreakerState.OPEN }
  else s1

/-! ### HealthCheckService model (src/unnamed/part_006) -/

/-- The database health probe verdict. -/
inductive DbStatus where
  | up
  | down
deriving Repr, DecidableEq

/-- The batch-processor health verdict. -/
inductive BatchStatus where
  | up
  | degraded
deriving Repr, DecidableEq

/-- The overall health verdict. -/
inductive OverallStatus where
  | up
  | down
  | degraded
deriving Repr, DecidableEq

/-- `evaluateBatchHealth(metrics)`: the failure rate is
`totalFlushFailures / (totalBatchesFlushed || 1)` and the memory
percentage is `(currentMemoryUsage / (100 * 1024 * 1024)) * 100`
— the denominator is the hard-coded constant 100 MiB, not the
configured `maxMemoryUsage`. Floats are modelled as exact rationals. -/
def evaluateBatchHealth (m : BatchMetrics) : BatchStatus :=
  let failureRate : ℚ :=
    (m.totalFlushFailures : ℚ) /
      ((jsOrNat (some m.totalBatchesFlushed) 1 : Nat) : ℚ)
  let memoryUsagePercent : ℚ :=
    ((m.currentMemoryUsage : ℚ) / ((100 * 1024 * 1024 : Nat) : ℚ)) * 100
  if (1 : ℚ) / 10 < failureRate ∨ (90 : ℚ) < memoryUsagePercent then
    BatchStatus.degraded
  else BatchStatus.up

/-- `determineOverallStatus(dbStatus, batchStatus)`. -/
def determineOverallStatus (dbStatus : DbStatus) (batchStatus : BatchStatus) :
    OverallStatus :=
  if dbStatus = DbStatus.down then OverallStatus.down
  else if batchStatus = BatchStatus.degraded then OverallStatus.degraded
  else OverallStatus.up

/-- Modelled from the spec: the batch-health rule as §4.4 words it,
with the configured `maxMemoryUsage` (in bytes) as the memory
denominator — `up` unless `totalFlushFailures / max(totalBatchesFlushed, 1)
> 0.1` or `currentMemoryUsage / maxMemoryUsage > 0.9`. Used only to
compare the specified rule against `evaluateBatchHealth`. -/
def evaluateBatchHealthSpec (maxMemoryUsage : Nat) (m : BatchMetrics) :
    BatchStatus :=
  if (1 : ℚ) / 10 <
      (m.totalFlushFailures : ℚ) / ((max m.totalBatchesFlushed 1 : Nat) : ℚ) ∨
     (9 : ℚ) / 10 < (m.currentMemoryUsage : ℚ) / ((maxMemoryUsage : Nat) : ℚ)
  then BatchStatus.degraded
  else BatchStatus.up

/-! ### MongoLoggerService model (src/src/core/mongo-logger.service.ts) -/

/-- A JS error-like value as `logError` reads it: property access
`err.message` / `err.stack` yields `undefined` (`none`) when the value
does not expose the attribute. -/
structure JsError where
  message? : Option String
  stack? : Option String
deriving Repr, DecidableEq

/-- The log entry the service hands to `BatchManager.addToBatch`,
with the typed fields of the `LogEntry` interface that `logError`
sets. `errorDetails` is never set by the code; it exists so the
spec-worded variant below is expressible in the same type. -/
structure ServiceLogEntry where
  timestamp : Nat
  level : Option String
  message : Option String
  stack : Option String
  errorDetails : Option String
  metadata : Option Doc
  collection : String
deriving Repr, DecidableEq

/-- `logError(collection, error, metadata?)`: build the entry
`{ timestamp: new Date(), level: 'error', message: error.message,
stack: error.stack, metadata, collection }` and submit it. -/
def logError (collection : String) (error : JsError)
    (metadata : Option Doc) (now : Nat) : ServiceLogEntry :=
  { timestamp := now
    level := some "error"
    message := error.message?
    stack := error.stack?
    errorDetails := none
    metadata := metadata
    collection := collection }

/-- A deterministic debug rendering of an error-like value, standing
in for the spec's `<debug render>`. -/
def debugRender (error : JsError) : String :=
  "JsError(message: " ++ toString error.message?
    ++ ", stack: " ++ toString error.stack? ++ ")"

/-- Modelled from the spec: `logError` as §4.3 words it — take
`message`/`stack` from the error when it exposes those attributes,
otherwise fall back to the message "An unknown error occurred" plus a
debug rendering in `errorDetails`. Used only to compare the specified
rule against `logError`. -/
def logErrorSpec (collection : String) (error : JsError)
    (metadata : Option Doc) (now : Nat) : ServiceLogEntry :=
  if error.message?.isSome ∧ error.stack?.isSome then
    { timestamp := now
      level := some "error"
      message := error.message?
      stack := error.stack?
      errorDetails := none
      metadata := metadata
      collection := collection }
  else
    { timestamp := now
      level := some "error"
      message := some "An unknown error occurred"
      stack := none
      errorDetails := some (debugRender error)
      metadata := metadata
      collection := collection }

/-! ### Association-list lemmas -/

theorem mapFind_mapSet_self {α : Type} (m : List (String × α)) (k : String)
    (v : α) : mapFind (mapSet m k v) k = some v := by
  induction m with
  | nil => simp [mapSet, mapFind]
  | cons hd tl ih =>
      by_cases hk : hd.1 = k
      · simp [mapSet, mapFind, hk]
      · simp [mapSet, mapFind, hk, ih]

theorem mapFind_mapSet_ne {α : Type} (m : List (String × α)) (k k' : String)
    (v : α) (hne : k' ≠ k) : mapFind (mapSet m k v) k' = mapFind m k' := by
  have hkk' : ¬(k = k') := fun e => hne e.symm
  induction m with
  | nil => simp [mapSet, mapFind, hkk']
  | cons hd tl ih =>
      by_cases hk : hd.1 = k
      · simp [mapSet, mapFind, hk, hkk']
      · by_cases hk' : hd.1 = k'
        · simp [mapSet, mapFind, hk, hk', hne]
        · simp [mapSet, mapFind, hk, hk', ih]

theorem mapFind_mapUpdate_self {α : Type} (m : List (String × α))
    (k : String) (f : α → α) (b : α) (h : mapFind m k = some b) :
    mapFind (mapUpdate m k f) k = some (f b) := by
  induction m with
  | nil => simp [mapFind] at h
  | cons hd tl ih =>
      by_cases hk : hd.1 = k
      · simp only [mapFind, hk, if_true] at h
        cases h
        simp [mapUpdate, mapFind, hk]
      · simp only [mapFind, hk, if_false] at h
        simp [mapUpdate, mapFind, hk, ih h]

theorem mapFind_mapUpdate_ne {α : Type} (m : List (String × α))
    (k k' : String) (f : α → α) (hne : k' ≠ k) :
    mapFind (mapUpdate m k f) k' = mapFind m k' := by
  have hkk' : ¬(k = k') := fun e => hne e.symm
  induction m with
  | nil => simp [mapUpdate]
  | cons hd tl ih =>
      by_cases hk : hd.1 = k
      · simp [mapUpdate, mapFind, hk, hkk']
      · by_cases hk' : hd.1 = k'
        · simp [mapUpdate, mapFind, hk, hk', hne]
        · simp [mapUpdate, mapFind, hk, hk', ih]

theorem mapUpdate_keys {α : Type} (m : List (String × α)) (k : String)
    (f : α → α) :
    (mapUpdate m k f).map (fun kv => kv.1) = m.map (fun kv => kv.1) := by
  induction m with
  | nil => rfl
  | cons hd tl ih =>
      by_cases hk : hd.1 = k
      · simp [mapUpdate, hk]
      · simp [mapUpdate, hk, ih]

theorem mapSet_keys_of_found {α : Type} (m : List (String × α)) (k : String)
    (v b : α) (h : mapFind m k = some b) :
    (mapSet m k v).map (fun kv => kv.1) = m.map (fun kv => kv.1) := by
  induction m with
  | nil => simp [mapFind] at h
  | cons hd tl ih =>
      by_cases hk : hd.1 = k
      · simp [mapSet, hk]
      · simp only [mapFind, hk, if_false] at h
        simp [mapSet, hk, ih h]

theorem mapFind_of_mem_nodup {α : Type} (m : List (String × α))
    (kv : String × α) (hmem : kv ∈ m)
    (hnd : (m.map (fun p => p.1)).Nodup) :
    mapFind m kv.1 = some kv.2 := by
  induction m with
  | nil => simp at hmem
  | cons hd tl ih =>
      simp only [List.map_cons, List.nodup_cons] at hnd
      rcases List.mem_cons.mp hmem with h | h
      · subst h
        simp [mapFind]
      · have hne : hd.1 ≠ kv.1 := fun e =>
          hnd.1 (e ▸ List.mem_map_of_mem (fun p => p.1) h)
        simp only [mapFind, hne, if_false]
        exact ih h hnd.2

theorem mem_mapSet {α : Type} (m : List (String × α)) (k : String) (v : α)
    (kv : String × α) (hmem : kv ∈ mapSet m k v) :
    kv ∈ m ∨ kv = (k, v) := by
  induction m with
  | nil => simp [mapSet] at hmem; exact Or.inr hmem
  | cons hd tl ih =>
      by_cases hk : hd.1 = k
      · simp only [mapSet, hk, if_true, List.mem_cons] at hmem
        rcases hmem with h | h
        · exact Or.inr h
        · exact Or.inl (List.mem_cons_of_mem hd h)
      · simp only [mapSet, hk, if_false, List.mem_cons] at hmem
        rcases hmem with h | h
        · exact Or.inl (h ▸ List.mem_cons_self hd tl)
        · rcases ih h with h' | h'
          · exact Or.inl (List.mem_cons_of_mem hd h')
          · exact Or.inr h'

theorem mem_mapUpdate {α : Type} (m : List (String × α)) (k : String)
    (f : α → α) (kv : String × α) (hmem : kv ∈ mapUpdate m k f) :
    kv ∈ m ∨ ∃ p ∈ m, p.1 = k ∧ kv = (k, f p.2) := by
  induction m with
  | nil => simp [mapUpdate] at hmem
  | cons hd tl ih =>
      by_cases hk : hd.1 = k
      · simp only [mapUpdate, hk, if_true, List.mem_cons] at hmem
        rcases hmem with h | h
        · exact Or.inr ⟨hd, List.mem_cons_self hd tl, hk, h⟩
        · exact Or.inl (List.mem_cons_of_mem hd h)
      · simp only [mapUpdate, hk, if_false, List.mem_cons] at hmem
        rcases hmem with h | h
        · exact Or.inl (h ▸ List.mem_cons_self hd tl)
        · rcases ih h with h' | h'
          · exact Or.inl (List.mem_cons_of_mem hd h')
          · rcases h' with ⟨p, hp, hpk, he⟩
            exact Or.inr ⟨p, List.mem_cons_of_mem hd hp, hpk, he⟩

/-! ### Document lemmas -/

theorem getField_stripBatchFields_batchId (d : Doc) :
    getField (stripBatchFields d) "_batchId" = none := by
  induction d with
  | nil => rfl
  | cons hd tl ih =>
      by_cases h : hd.1 = "_batchId"
      · simp [stripBatchFields, h]
        simpa [stripBatchFields] using ih
      · by_cases h2 : hd.1 = "_retryCount"
        · simp [stripBatchFields, h2]
          simpa [stripBatchFields] using ih
        · have hcond : (hd.1 != "_batchId" && hd.1 != "_retryCount") = true := by
            simp [h, h2]
          simp only [stripBatchFields, List.filter_cons, hcond, if_true]
          simp only [getField, h, if_false]
          simpa [stripBatchFields] using ih

theorem getField_stripBatchFields_retryCount (d : Doc) :
    getField (stripBatchFields d) "_retryCount" = none := by
  induction d with
  | nil => rfl
  | cons hd tl ih =>
      by_cases h : hd.1 = "_batchId"
      · simp [stripBatchFields, h]
        simpa [stripBatchFields] using ih
      · by_cases h2 : hd.1 = "_retryCount"
        · simp [stripBatchFields, h2]
          simpa [stripBatchFields] using ih
        · have hcond : (hd.1 != "_batchId" && hd.1 != "_retryCount") = true := by
            simp [h, h2]
          simp only [stripBatchFields, List.filter_cons, hcond, if_true]
          simp only [getField, h2, if_false]
          simpa [stripBatchFields] using ih

theorem getField_stripBatchFields_other (d : Doc) (k : String)
    (h1 : k ≠ "_batchId") (h2 : k ≠ "_retryCount") :
    getField (stripBatchFields d) k = getField d k := by
  induction d with
  | nil => rfl
  | cons hd tl ih =>
      by_cases hk : hd.1 = k
      · have hb : hd.1 ≠ "_batchId" := hk ▸ h1
        have hr : hd.1 ≠ "_retryCount" := hk ▸ h2
        have hcond : (hd.1 != "_batchId" && hd.1 != "_retryCount") = true := by
          simp [hb, hr]
        simp only [stripBatchFields, List.filter_cons, hcond, if_true]
        simp [getField, hk]
      · by_cases hb : hd.1 = "_batchId"
        · simp only [stripBatchFields, List.filter_cons]
          simp only [hb, bne_self_eq_false, Bool.false_and, if_false]
          simp only [getField, hk, if_false]
          simpa [stripBatchFields] using ih
        · by_cases hr : hd.1 = "_retryCount"
          · simp only [stripBatchFields, List.filter_cons]
            simp only [hr, bne_self_eq_false, Bool.and_false, if_false]
            simp only [getField, hk, if_false]
            simpa [stripBatchFields] using ih
          · have hcond : (hd.1 != "_batchId" && hd.1 != "_retryCount") = true := by
              simp [hb, hr]
            simp only [stripBatchFields, List.filter_cons, hcond, if_true]
            simp only [getField, hk, if_false]
            simpa [stripBatchFields] using ih

theorem stripBatchFields_sublist (d : Doc) : (stripBatchFields d).Sublist d :=
  List.filter_sublist d

theorem getField_setField_self (d : Doc) (k : String) (v : JVal) :
    getField (setField d k v) k = some v := by
  induction d with
  | nil => simp [setField, getField]
  | cons hd tl ih =>
      by_cases hk : hd.1 = k
      · simp [setField, getField, hk]
      · simp [setField, getField, hk, ih]

theorem batchIdOf_setField (e : Doc) (u : String) :
    batchIdOf (setField e "_batchId" (JVal.str u)) = some (JVal.str u) :=
  getField_setField_self e "_batchId" (JVal.str u)

/-! ### Staging lemmas -/

theorem addToBatchStage_batches (cfg : BMConfig) (s : BMState) (e : Doc)
    (u : String) (t : Nat) :
    (addToBatchStage cfg s e u t).batches =
      mapUpdate
        (if (mapFind s.batches (resolveCollection cfg e)).isNone then
          mapSet s.batches (resolveCollection cfg e)
            { entries := [], lastFlush := t, memorySize := 0 }
        else s.batches)
        (resolveCollection cfg e)
        (fun b =>
          { b with
              entries := b.entries ++ [setField e "_batchId" (JVal.str u)]
              memorySize :=
                b.memorySize +
                  estimateEntrySize (setField e "_batchId" (JVal.str u)) }) :=
  rfl

theorem addToBatchStage_find_self (cfg : BMConfig) (s : BMState) (e : Doc)
    (u : String) (t : Nat) (b : CollectionBatch)
    (hb : mapFind s.batches (resolveCollection cfg e) = some b) :
    mapFind (addToBatchStage cfg s e u t).batches (resolveCollection cfg e) =
      some
        { entries := b.entries ++ [setField e "_batchId" (JVal.str u)]
          lastFlush := b.lastFlush
          memorySize :=
            b.memorySize +
              estimateEntrySize (setField e "_batchId" (JVal.str u)) } := by
  rw [addToBatchStage_batches]
  rw [hb]
  simp only [Option.isNone_some, Bool.false_eq_true, if_false]
  exact mapFind_mapUpdate_self _ _ _ _ hb

theorem addToBatchStage_find_self_none (cfg : BMConfig) (s : BMState)
    (e : Doc) (u : String) (t : Nat)
    (hb : mapFind s.batches (resolveCollection cfg e) = none) :
    mapFind (addToBatchStage cfg s e u t).batches (resolveCollection cfg e) =
      some
        { entries := [setField e "_batchId" (JVal.str u)]
          lastFlush := t
          memorySize :=
            estimateEntrySize (setField e "_batchId" (JVal.str u)) } := by
  rw [addToBatchStage_batches]
  rw [hb]
  simp only [Option.isNone_none, if_true]
  have hset := mapFind_mapSet_self s.batches (resolveCollection cfg e)
    (CollectionBatch.mk [] t 0)
  have := mapFind_mapUpdate_self
    (mapSet s.batches (resolveCollection cfg e) (CollectionBatch.mk [] t 0))
    (resolveCollection cfg e)
    (fun b =>
      { b with
          entries := b.entries ++ [setField e "_batchId" (JVal.str u)]
          memorySize :=
            b.memorySize +
              estimateEntrySize (setField e "_batchId" (JVal.str u)) })
    (CollectionBatch.mk [] t 0) hset
  simpa using this

theorem addToBatchStage_find_ne (cfg : BMConfig) (s : BMState) (e : Doc)
    (u : String) (t : Nat) (c : String)
    (hc : c ≠ resolveCollection cfg e) :
    mapFind (addToBatchStage cfg s e u t).batches c =
      mapFind s.batches c := by
  rw [addToBatchStage_batches]
  rw [mapFind_mapUpdate_ne _ _ _ _ hc]
  by_cases hb : (mapFind s.batches (resolveCollection cfg e)).isNone
  · simp only [hb, if_true]
    exact mapFind_mapSet_ne _ _ _ _ hc
  · simp only [hb, if_false]
    simp

theorem addToBatchStage_flushing (cfg : BMConfig) (s : BMState) (e : Doc)
    (u : String) (t : Nat) :
    (addToBatchStage cfg s e u t).flushingCollections =
      s.flushingCollections := rfl

theorem addToBatchStage_shutdown (cfg : BMConfig) (s : BMState) (e : Doc)
    (u : String) (t : Nat) :
    (addToBatchStage cfg s e u t).isShuttingDown = s.isShuttingDown := rfl

/-! ### Submission-tracking lemmas -/

theorem applySubmits_find (cfg : BMConfig) (subs : List (Doc × String × Nat))
    (s : BMState) (name : String) (b : CollectionBatch)
    (hb : mapFind s.batches name = some b) :
    ∃ lf ms,
      mapFind (applySubmits cfg subs s).batches name =
        some
          { entries := b.entries ++ routedEntries cfg name subs
            lastFlush := lf
            memorySize := ms } := by
  induction subs generalizing s b with
  | nil =>
      refine ⟨b.lastFlush, b.memorySize, ?_⟩
      simpa [applySubmits, routedEntries] using hb
  | cons sub rest ih =>
      obtain ⟨e, u, t⟩ := sub
      by_cases hc : resolveCollection cfg e = name
      · have hb' : mapFind s.batches (resolveCollection cfg e) = some b := by
          rw [hc]; exact hb
        have hfind := addToBatchStage_find_self cfg s e u t b hb'
        rw [hc] at hfind
        obtain ⟨lf, ms, hfin⟩ := ih (addToBatchStage cfg s e u t) _ hfind
        refine ⟨lf, ms, ?_⟩
        simpa [applySubmits, routedEntries, hc] using hfin
      · have hfind := addToBatchStage_find_ne cfg s e u t name
          (fun h => hc h.symm)
        rw [hb] at hfind
        obtain ⟨lf, ms, hfin⟩ := ih (addToBatchStage cfg s e u t) b hfind
        refine ⟨lf, ms, ?_⟩
        simpa [applySubmits, routedEntries, hc] using hfin

theorem mapFind_some_mem {α : Type} (m : List (String × α)) (k : String)
    (b : α) (h : mapFind m k = some b) : (k, b) ∈ m := by
  induction m with
  | nil => simp [mapFind] at h
  | cons hd tl ih =>
      by_cases hk : hd.1 = k
      · simp only [mapFind, hk, if_true] at h
        cases h
        subst hk
        exact List.mem_cons_self hd tl
      · simp only [mapFind, hk, if_false] at h
        exact List.mem_cons_of_mem hd (ih h)

/-! ### DLQ-list lemmas -/

theorem filter_map_eq_filterMap {α β : Type} (p : α → Bool) (f : α → β)
    (l : List α) :
    (l.filter p).map f =
      l.filterMap (fun a => if p a then some (f a) else none) := by
  induction l with
  | nil => rfl
  | cons hd tl ih =>
      by_cases h : p hd
      · simp [List.filter_cons, List.filterMap_cons, h, ih]
      · simp [List.filter_cons, List.filterMap_cons, h, ih]

theorem dlqEntries_eq_spec (name : String) (l : List Doc) (ind : List Nat)
    (now : Nat) :
    ((l.enum.filter (fun p => ind.contains p.1)).map
        (fun p =>
          ({ originalLog := p.2
             errorDetailsMessage :=
               "Bulk write operation failed for this log entry."
             failedAt := now
             sourceCollection := name } : DlqRecord))) =
      dlqRecordsSpec name l ind now := by
  rw [List.enum_eq_zip_range]
  rw [filter_map_eq_filterMap]
  rfl

/-! ### Flush-step lemmas -/

/-- A flush outcome after which the captured entries are never
re-queued: success, or a bulk-write partial failure (whose failed
records go to the DLQ instead). -/
def TerminalOutcome (o : FlushOutcome) : Prop :=
  o = FlushOutcome.success ∨ ∃ we, o = FlushOutcome.bulkWriteError we

theorem flushFinish_batches (outcome : FlushOutcome) (dlqOk : Bool)
    (now : Nat) (s : BMState) (name : String) (captured : List Doc) :
    (flushFinish outcome dlqOk now s name captured).1.batches = s.batches
    ∨ (flushFinish outcome dlqOk now s name captured).1.batches =
        mapUpdate s.batches name (fun liveBatch =>
          { liveBatch with
              entries := captured ++ liveBatch.entries
              memorySize := liveBatch.memorySize +
                (captured.map estimateEntrySize).sum }) := by
  cases outcome with
  | success => exact Or.inl rfl
  | dbUnavailable => exact Or.inr rfl
  | otherError => exact Or.inr rfl
  | bulkWriteError we =>
      left
      simp only [flushFinish, handleFlushError]
      split
      · simp [sendToDlq]
      · rfl

theorem flushFinish_terminal_batches (outcome : FlushOutcome) (dlqOk : Bool)
    (now : Nat) (s : BMState) (name : String) (captured : List Doc)
    (hterm : TerminalOutcome outcome) :
    (flushFinish outcome dlqOk now s name captured).1.batches = s.batches := by
  rcases hterm with h | ⟨we, h⟩ <;> subst h
  · rfl
  · simp only [flushFinish, handleFlushError]
    split
    · simp [sendToDlq]
    · rfl

theorem flushFinish_flushing (outcome : FlushOutcome) (dlqOk : Bool)
    (now : Nat) (s : BMState) (name : String) (captured : List Doc) :
    (flushFinish outcome dlqOk now s name captured).1.flushingCollections =
      s.flushingCollections.erase name := by
  cases outcome with
  | success => rfl
  | dbUnavailable => rfl
  | otherError => rfl
  | bulkWriteError we =>
      simp only [flushFinish, handleFlushError]
      split
      · simp [sendToDlq]
      · rfl

theorem flushCollection_terminal (outcome : FlushOutcome) (dlqOk : Bool)
    (now : Nat) (s : BMState) (name : String)
    (hq : s.flushingCollections = [])
    (hterm : TerminalOutcome outcome) :
    (flushCollection false outcome dlqOk now s name).1.flushingCollections = []
    ∧ ((flushCollection false outcome dlqOk now s name).1.batches.map
        (fun kv => kv.1) = s.batches.map (fun kv => kv.1))
    ∧ (∀ c, c ≠ name →
        mapFind (flushCollection false outcome dlqOk now s name).1.batches c =
          mapFind s.batches c)
    ∧ (mapFind (flushCollection false outcome dlqOk now s name).1.batches name
          = mapFind s.batches name
        ∨ ∃ b,
            mapFind (flushCollection false outcome dlqOk now s name).1.batches
              name = some b ∧ b.entries = []) := by
  unfold flushCollection
  cases hgate : flushGate false s name with
  | none => exact ⟨hq, rfl, fun c _ => rfl, Or.inl rfl⟩
  | some b =>
      have hfindb : mapFind s.batches name = some b := by
        unfold flushGate at hgate
        simp only [Bool.false_eq_true, if_false] at hgate
        rcases hcont : s.flushingCollections.contains name with _ | _
        · rw [hcont] at hgate
          simp only [Bool.false_eq_true, if_false] at hgate
          cases hfind : mapFind s.batches name with
          | none => rw [hfind] at hgate; simp at hgate
          | some b' =>
              rw [hfind] at hgate
              by_cases hlen : b'.entries.length = 0
              · simp [hlen] at hgate
              · simp only [hlen, if_false] at hgate
                injection hgate with hb
                subst hb
                rfl
        · rw [hcont] at hgate
          simp at hgate
      have hbat := flushFinish_terminal_batches outcome dlqOk now
        (flushSwapStep now s name) name b.entries hterm
      have hflu := flushFinish_flushing outcome dlqOk now
        (flushSwapStep now s name) name b.entries
      refine ⟨?_, ?_, ?_, ?_⟩
      · rw [hflu]
        simp [flushSwapStep, hq, List.erase_cons_head]
      · rw [hbat]
        simpa [flushSwapStep] using
          mapSet_keys_of_found s.batches name
            (CollectionBatch.mk [] now 0) b hfindb
      · intro c hc
        rw [hbat]
        simpa [flushSwapStep] using
          mapFind_mapSet_ne s.batches name c (CollectionBatch.mk [] now 0) hc
      · right
        refine ⟨CollectionBatch.mk [] now 0, ?_, rfl⟩
        rw [hbat]
        simpa [flushSwapStep] using
          mapFind_mapSet_self s.batches name (CollectionBatch.mk [] now 0)

theorem flushGate_none_cases (s : BMState) (name : String)
    (hq : s.flushingCollections = [])
    (hgate : flushGate false s name = none) :
    mapFind s.batches name = none
    ∨ ∃ b, mapFind s.batches name = some b ∧ b.entries = [] := by
  unfold flushGate at hgate
  have hcont : s.flushingCollections.contains name = false := by
    rw [hq]; rfl
  simp only [Bool.false_eq_true, if_false, hcont] at hgate
  cases hfind : mapFind s.batches name with
  | none => exact Or.inl rfl
  | some b =>
      rw [hfind] at hgate
      by_cases hlen : b.entries.length = 0
      · exact Or.inr ⟨b, rfl, List.length_eq_zero.mp hlen⟩
      · simp [hlen] at hgate

theorem flushCollection_terminal_find (outcome : FlushOutcome) (dlqOk : Bool)
    (now : Nat) (s : BMState) (name : String)
    (hq : s.flushingCollections = [])
    (hterm : TerminalOutcome outcome) :
    mapFind (flushCollection false outcome dlqOk now s name).1.batches name
        = none
    ∨ ∃ b,
        mapFind (flushCollection false outcome dlqOk now s name).1.batches
          name = some b ∧ b.entries = [] := by
  unfold flushCollection
  cases hgate : flushGate false s name with
  | none => exact flushGate_none_cases s name hq hgate
  | some b =>
      have hbat := flushFinish_terminal_batches outcome dlqOk now
        (flushSwapStep now s name) name b.entries hterm
      right
      refine ⟨CollectionBatch.mk [] now 0, ?_, rfl⟩
      rw [hbat]
      simpa [flushSwapStep] using
        mapFind_mapSet_self s.batches name (CollectionBatch.mk [] now 0)

theorem flushList_terminal (outcomes : String → FlushOutcome) (dlqOk : Bool)
    (now : Nat) (hterm : ∀ n, TerminalOutcome (outcomes n)) :
    ∀ (names : List String) (s : BMState), s.flushingCollections = [] →
      (flushList false outcomes dlqOk now s names).1.flushingCollections = []
      ∧ ((flushList false outcomes dlqOk now s names).1.batches.map
          (fun kv => kv.1) = s.batches.map (fun kv => kv.1))
      ∧ (∀ c, c ∉ names →
          mapFind (flushList false outcomes dlqOk now s names).1.batches c =
            mapFind s.batches c)
      ∧ (∀ c ∈ names,
          mapFind (flushList false outcomes dlqOk now s names).1.batches c =
              none
          ∨ ∃ b,
              mapFind
                (flushList false outcomes dlqOk now s names).1.batches c =
                some b ∧ b.entries = []) := by
  intro names
  induction names with
  | nil =>
      intro s hq
      exact ⟨hq, rfl, fun c _ => rfl, fun c hc => absurd hc (List.not_mem_nil c)⟩
  | cons n rest ih =>
      intro s hq
      have h1 := flushCollection_terminal (outcomes n) dlqOk now s n hq
        (hterm n)
      have hfind1 := flushCollection_terminal_find (outcomes n) dlqOk now s n
        hq (hterm n)
      obtain ⟨h1a, h1b, h1c, _⟩ := h1
      have hrest := ih (flushCollection false (outcomes n) dlqOk now s n).1 h1a
      obtain ⟨h2a, h2b, h2c, h2d⟩ := hrest
      refine ⟨h2a, ?_, ?_, ?_⟩
      · rw [show (flushList false outcomes dlqOk now s (n :: rest)).1 =
            (flushList false outcomes dlqOk now
              (flushCollection false (outcomes n) dlqOk now s n).1 rest).1
            from rfl]
        rw [h2b, h1b]
      · intro c hc
        have hcn : c ≠ n := fun h => hc (h ▸ List.mem_cons_self n rest)
        have hcr : c ∉ rest := fun h => hc (List.mem_cons_of_mem n h)
        rw [show (flushList false outcomes dlqOk now s (n :: rest)).1 =
            (flushList false outcomes dlqOk now
              (flushCollection false (outcomes n) dlqOk now s n).1 rest).1
            from rfl]
        rw [h2c c hcr, h1c c hcn]
      · intro c hc
        rw [show (flushList false outcomes dlqOk now s (n :: rest)).1 =
            (flushList false outcomes dlqOk now
              (flushCollection false (outcomes n) dlqOk now s n).1 rest).1
            from rfl]
        rcases List.mem_cons.mp hc with hcn | hcr
        · subst hcn
          by_cases hcr : c ∈ rest
          · exact h2d c hcr
          · rw [h2c c hcr]
            exact hfind1
        · exact h2d c hcr

theorem flushCollection_skip_of_empty (outcome : FlushOutcome) (dlqOk : Bool)
    (now : Nat) (s : BMState) (name : String)
    (hempty : ∀ kv ∈ s.batches, kv.2.entries = []) :
    flushCollection false outcome dlqOk now s name = (s, []) := by
  unfold flushCollection
  cases hgate : flushGate false s name with
  | none => rfl
  | some b =>
      exfalso
      unfold flushGate at hgate
      simp only [Bool.false_eq_true, if_false] at hgate
      by_cases hcont : s.flushingCollections.contains name
      · rw [hcont] at hgate
        simp at hgate
      · simp only [hcont, Bool.false_eq_true, if_false] at hgate
        cases hfind : mapFind s.batches name with
        | none => rw [hfind] at hgate; simp at hgate
        | some b' =>
            rw [hfind] at hgate
            have hmem := mapFind_some_mem s.batches name b' hfind
            have : b'.entries = [] := hempty (name, b') hmem
            simp [this] at hgate

theorem flushList_all_empty (outcomes : String → FlushOutcome)
    (dlqOk : Bool) (now : Nat) (names : List String) (s : BMState)
    (hempty : ∀ kv ∈ s.batches, kv.2.entries = []) :
    flushList false outcomes dlqOk now s names = (s, []) := by
  induction names with
  | nil => rfl
  | cons n rest ih =>
      show (let r1 := flushCollection false (outcomes n) dlqOk now s n
            let r2 := flushList false outcomes dlqOk now r1.1 rest
            (r2.1, r1.2 ++ r2.2)) = (s, [])
      rw [flushCollection_skip_of_empty (outcomes n) dlqOk now s n hempty]
      simp [ih]

/-! ### Memory-invariant lemmas -/

theorem sumMemory_eq_totalEstimatedSize (bs : List (String × CollectionBatch))
    (h : ∀ kv ∈ bs,
      kv.2.memorySize = (kv.2.entries.map estimateEntrySize).sum) :
    sumMemory bs = totalEstimatedSize bs := by
  unfold sumMemory totalEstimatedSize
  induction bs with
  | nil => rfl
  | cons hd tl ih =>
      simp only [List.map_cons, List.sum_cons]
      rw [h hd (List.mem_cons_self hd tl),
        ih (fun kv hkv => h kv (List.mem_cons_of_mem hd hkv))]

theorem batchSizeInv_addToBatchStage (cfg : BMConfig) (s : BMState) (e : Doc)
    (u : String) (t : Nat) (h : BatchSizeInv s) :
    BatchSizeInv (addToBatchStage cfg s e u t) := by
  have hbatches0 : ∀ kv ∈
      (if (mapFind s.batches (resolveCollection cfg e)).isNone then
        mapSet s.batches (resolveCollection cfg e)
          { entries := [], lastFlush := t, memorySize := 0 }
      else s.batches),
      kv.2.memorySize = (kv.2.entries.map estimateEntrySize).sum := by
    intro kv hkv
    by_cases hn : (mapFind s.batches (resolveCollection cfg e)).isNone
    · rw [if_pos hn] at hkv
      rcases mem_mapSet _ _ _ _ hkv with h1 | h1
      · exact h kv h1
      · subst h1; rfl
    · rw [if_neg hn] at hkv
      exact h kv hkv
  intro kv hkv
  rw [addToBatchStage_batches] at hkv
  rcases mem_mapUpdate _ _ _ _ hkv with h1 | ⟨p, hp, hpk, he⟩
  · exact hbatches0 kv h1
  · subst he
    have hpinv := hbatches0 p hp
    simp only [List.map_append, List.sum_append, List.map_cons,
      List.map_nil, List.sum_cons, List.sum_nil]
    rw [hpinv]
    omega

theorem batchSizeInv_flushSwapStep (now : Nat) (s : BMState) (name : String)
    (h : BatchSizeInv s) : BatchSizeInv (flushSwapStep now s name) := by
  intro kv hkv
  rcases mem_mapSet _ _ _ _ (by simpa [flushSwapStep] using hkv) with h1 | h1
  · exact h kv h1
  · subst h1; rfl

theorem batchSizeInv_flushFinish (outcome : FlushOutcome) (dlqOk : Bool)
    (now : Nat) (s : BMState) (name : String) (captured : List Doc)
    (h : BatchSizeInv s) :
    BatchSizeInv (flushFinish outcome dlqOk now s name captured).1 := by
  intro kv hkv
  rcases flushFinish_batches outcome dlqOk now s name captured with hb | hb
  · rw [hb] at hkv
    exact h kv hkv
  · rw [hb] at hkv
    rcases mem_mapUpdate _ _ _ _ hkv with h1 | ⟨p, hp, hpk, he⟩
    · exact h kv h1
    · subst he
      have hpinv := h p hp
      simp only [List.map_append, List.sum_append]
      rw [hpinv]
      omega

theorem batchSizeInv_flushCollection (circuitOpen : Bool)
    (outcome : FlushOutcome) (dlqOk : Bool) (now : Nat) (s : BMState)
    (name : String) (h : BatchSizeInv s) :
    BatchSizeInv (flushCollection circuitOpen outcome dlqOk now s name).1 := by
  unfold flushCollection
  cases hgate : flushGate circuitOpen s name with
  | none => exact h
  | some b =>
      exact batchSizeInv_flushFinish outcome dlqOk now
        (flushSwapStep now s name) name b.entries
        (batchSizeInv_flushSwapStep now s name h)

/-! ### Circuit-breaker lemmas -/

theorem handleConnectionFailure_circuit_closed_small (now : Nat) (s : CMState)
    (hclosed : s.circuitState = CircuitBreakerState.CLOSED)
    (hlt : s.failureCount + 1 < failureThreshold) :
    (handleConnectionFailure now s).circuitState = CircuitBreakerState.CLOSED
    ∧ (handleConnectionFailure now s).failureCount = s.failureCount + 1 := by
  unfold handleConnectionFailure
  simp only [hclosed]
  have h1 : ¬(CircuitBreakerState.CLOSED = CircuitBreakerState.HALF_OPEN) :=
    by simp
  have h2 : ¬(failureThreshold ≤ s.failureCount + 1) := by omega
  rw [if_neg h1, if_neg h2]
  exact ⟨rfl, rfl⟩

theorem handleConnectionFailure_circuit_closed_hit (now : Nat) (s : CMState)
    (hclosed : s.circuitState = CircuitBreakerState.CLOSED)
    (hge : failureThreshold ≤ s.failureCount + 1) :
    (handleConnectionFailure now s).circuitState =
      CircuitBreakerState.OPEN := by
  unfold handleConnectionFailure
  simp only [hclosed]
  have h1 : ¬(CircuitBreakerState.CLOSED = CircuitBreakerState.HALF_OPEN) :=
    by simp
  rw [if_neg h1, if_pos hge]

theorem failures_reach_threshold (times : List Nat) :
    ∀ s : CMState, s.circuitState = CircuitBreakerState.CLOSED →
      s.failureCount + times.length = failureThreshold →
      times ≠ [] →
      (times.foldl (fun st t => handleConnectionFailure t st) s).circuitState
        = CircuitBreakerState.OPEN := by
  induction times with
  | nil => intro s _ _ hne; exact absurd rfl hne
  | cons t rest ih =>
      intro s hclosed hcount _
      simp only [List.foldl_cons]
      rcases rest with _ | ⟨t2, rest2⟩
      · simp only [List.foldl_nil]
        have hge : failureThreshold ≤ s.failureCount + 1 := by
          simp only [List.length_cons, List.length_nil] at hcount
          omega
        exact handleConnectionFailure_circuit_closed_hit t s hclosed hge
      · have hlt : s.failureCount + 1 < failureThreshold := by
          simp only [List.length_cons] at hcount
          omega
        obtain ⟨hc, hf⟩ :=
          handleConnectionFailure_circuit_closed_small t s hclosed hlt
        refine ih (handleConnectionFailure t s) hc ?_ (by simp)
        simp only [List.length_cons] at hcount ⊢
        omega

/-- C5 (amended): while the breaker is Open, every `getDatabase` call
made at most `openDuration` ms after `lastFailureTime` throws the
circuit-open error with no state change and no driver call; the first
call made strictly more than `openDuration` ms after `lastFailureTime`
flips the breaker to HALF_OPEN and proceeds to a single trial connect
(when disconnected); a connection failure during HALF_OPEN re-opens
the breaker; and 5 consecutive connection failures starting from a
CLOSED breaker with a zero failure count open the breaker. -/
theorem circuit_breaker_behaviour (s : CMState) (now : Nat) :
    (s.circuitState = CircuitBreakerState.OPEN →
      now - (s.lastFailureTime.getD 0) ≤ openDuration →
      getDatabaseGate now s = (s, AcquireResult.circuitOpenError))
    ∧ (s.circuitState = CircuitBreakerState.OPEN →
        openDuration < now - (s.lastFailureTime.getD 0) →
        s.status = ConnectionStatus.DISCONNECTED →
        getDatabaseGate now s =
          ({ s with circuitState := CircuitBreakerState.HALF_OPEN },
            AcquireResult.connectAttempt))
    ∧ (s.circuitState = CircuitBreakerState.HALF_OPEN →
        (handleConnectionFailure now s).circuitState =
          CircuitBreakerState.OPEN)
    ∧ (∀ (times : List Nat) (s0 : CMState),
        s0.circuitState = CircuitBreakerState.CLOSED →
        s0.failureCount = 0 →
        times.length = failureThreshold →
        (times.foldl (fun st t => handleConnectionFailure t st) s0).circuitState
          = CircuitBreakerState.OPEN) := by
  refine ⟨?_, ?_, ?_, ?_⟩
  · intro hopen hle
    unfold getDatabaseGate
    rw [if_pos hopen, if_neg (by omega)]
  · intro hopen hlt hdisc
    unfold getDatabaseGate
    rw [if_pos hopen, if_pos hlt]
    unfold acquireDispatch
    rw [if_neg, if_neg]
    · simp [hdisc]
    · simp [hdisc]
  · intro hhalf
    unfold handleConnectionFailure
    simp [hhalf]
  · intro times s0 hclosed hzero hlen
    refine failures_reach_threshold times s0 hclosed (by omega) ?_
    intro he
    rw [he] at hlen
    simp [failureThreshold] at hlen

/-- Witness for `circuit_breaker_behaviour` at concrete states: an Open
breaker with `lastFailureTime = 0` still fails at `now = 29999`, flips
to HALF_OPEN at `now = 30001`, a HALF_OPEN failure re-opens, and five
failures from the initial state open the breaker. -/
theorem circuit_breaker_behaviour_witness :
    getDatabaseGate 29999
        (CMState.mk false ConnectionStatus.DISCONNECTED
          CircuitBreakerState.OPEN 5 (some 0) (ConnMetrics.mk 0 5 0 none none))
      = (CMState.mk false ConnectionStatus.DISCONNECTED
          CircuitBreakerState.OPEN 5 (some 0) (ConnMetrics.mk 0 5 0 none none),
         AcquireResult.circuitOpenError)
    ∧ getDatabaseGate 30001
        (CMState.mk false ConnectionStatus.DISCONNECTED
          CircuitBreakerState.OPEN 5 (some 0) (ConnMetrics.mk 0 5 0 none none))
      = (CMState.mk false ConnectionStatus.DISCONNECTED
          CircuitBreakerState.HALF_OPEN 5 (some 0)
          (ConnMetrics.mk 0 5 0 none none),
         AcquireResult.connectAttempt)
    ∧ (handleConnectionFailure 30500
        (CMState.mk false ConnectionStatus.DISCONNECTED
          CircuitBreakerState.HALF_OPEN 5 (some 0)
          (ConnMetrics.mk 0 5 0 none none))).circuitState =
        CircuitBreakerState.OPEN
    ∧ (([10, 20, 30, 40, 50] : List Nat).foldl
        (fun st t => handleConnectionFailure t st)
        (CMState.mk false ConnectionStatus.DISCONNECTED
          CircuitBreakerState.CLOSED 0 none
          (ConnMetrics.mk 0 0 0 none none))).circuitState =
        CircuitBreakerState.OPEN := by
  refine ⟨?_, ?_, ?_, ?_⟩
  · exact (circuit_breaker_behaviour _ 29999).1 (by decide) (by decide)
  · exact (circuit_breaker_behaviour _ 30001).2.1 (by decide) (by decide)
      (by decide)
  · exact (circuit_breaker_behaviour _ 30500).2.2.1 (by decide)
  · exact (circuit_breaker_behaviour
        (CMState.mk false ConnectionStatus.DISCONNECTED
          CircuitBreakerState.CLOSED 0 none
          (ConnMetrics.mk 0 0 0 none none)) 0).2.2.2
      [10, 20, 30, 40, 50] _ (by decide) (by decide) (by decide)

/-- Counterexample to C5 as stated: with the breaker Open and
`lastFailureTime = 0`, the acquire made when exactly `openDuration`
(30000 ms) has elapsed still fails with the circuit-open error and
does not transition to HALF_OPEN — the code requires strictly more
than `openDuration` to elapse. -/
theorem circuit_open_exact_boundary_counterexample :
    getDatabaseGate 30000
        (CMState.mk false ConnectionStatus.DISCONNECTED
          CircuitBreakerState.OPEN 5 (some 0) (ConnMetrics.mk 0 5 0 none none))
      = (CMState.mk false ConnectionStatus.DISCONNECTED
          CircuitBreakerState.OPEN 5 (some 0) (ConnMetrics.mk 0 5 0 none none),
         AcquireResult.circuitOpenError)
    ∧ (getDatabaseGate 30000
        (CMState.mk false ConnectionStatus.DISCONNECTED
          CircuitBreakerState.OPEN 5 (some 0)
          (ConnMetrics.mk 0 5 0 none none))).1.circuitState ≠
        CircuitBreakerState.HALF_OPEN := by
  decide

/-- C8 (amended): the batch-processor status follows the specified
rule with the memory denominator fixed at 100 MiB (the code hard-codes
`100 * 1024 * 1024` instead of the configured `maxMemoryUsage`);
the `totalBatchesFlushed || 1` guard agrees with
`max(totalBatchesFlushed, 1)`; and the overall status is `down` when
the database is down, else `degraded` when the batch status is
degraded, else `up`. -/
theorem health_status_rule :
    (∀ m : BatchMetrics,
      evaluateBatchHealth m = evaluateBatchHealthSpec (100 * 1024 * 1024) m)
    ∧ (∀ bs, determineOverallStatus DbStatus.down bs = OverallStatus.down)
    ∧ determineOverallStatus DbStatus.up BatchStatus.degraded =
        OverallStatus.degraded
    ∧ determineOverallStatus DbStatus.up BatchStatus.up = OverallStatus.up := by
  refine ⟨?_, ?_, rfl, rfl⟩
  · intro m
    unfold evaluateBatchHealth evaluateBatchHealthSpec
    have h1 : ((jsOrNat (some m.totalBatchesFlushed) 1 : Nat) : ℚ) =
        ((max m.totalBatchesFlushed 1 : Nat) : ℚ) := by
      congr 1
      unfold jsOrNat
      cases m.totalBatchesFlushed with
      | zero => rfl
      | succ n => simp [Nat.succ_ne_zero]
    have h2 : ((90 : ℚ) <
          (m.currentMemoryUsage : ℚ) / ((100 * 1024 * 1024 : Nat) : ℚ) * 100)
        ↔ ((9 : ℚ) / 10 <
          (m.currentMemoryUsage : ℚ) / ((100 * 1024 * 1024 : Nat) : ℚ)) := by
      constructor <;> intro h <;> linarith
    rw [h1]
    simp only [h2]
  · intro bs
    rfl

/-- Witness for `health_status_rule` at a concrete metrics record:
2 failures over 10 flushed batches (rate 0.2 > 0.1) is degraded under
both the code and the spec rule at 100 MiB. -/
theorem health_status_rule_witness :
    evaluateBatchHealth
        (BatchMetrics.mk 100 10 2 2 0 none 0 1) =
      evaluateBatchHealthSpec (100 * 1024 * 1024)
        (BatchMetrics.mk 100 10 2 2 0 none 0 1)
    ∧ determineOverallStatus DbStatus.down BatchStatus.up =
        OverallStatus.down :=
  ⟨health_status_rule.1 (BatchMetrics.mk 100 10 2 2 0 none 0 1),
   health_status_rule.2.1 BatchStatus.up⟩

/-- Counterexample to C8 as stated: with `maxMemoryUsage` configured
to 1 MiB and 2 MiB of staged memory, the claimed rule
(`currentMemoryUsage / maxMemoryUsage > 0.9`) yields `degraded`, but
`evaluateBatchHealth` divides by the hard-coded 100 MiB and reports
`up`. -/
theorem health_ignores_configured_max_counterexample :
    evaluateBatchHealth
        (BatchMetrics.mk 0 1 0 0 0 none (2 * 1024 * 1024) 1) =
      BatchStatus.up
    ∧ evaluateBatchHealthSpec (1 * 1024 * 1024)
        (BatchMetrics.mk 0 1 0 0 0 none (2 * 1024 * 1024) 1) =
      BatchStatus.degraded := by
  constructor
  · unfold evaluateBatchHealth
    rw [if_neg]
    push_neg
    constructor
    · norm_num [jsOrNat]
    · norm_num
  · unfold evaluateBatchHealthSpec
    rw [if_pos]
    right
    norm_num

/-- C9 (amended): `logError` always derives the entry directly from
the error value: whenever the error exposes `message` and `stack`,
the submitted entry is
`{ timestamp: now, level: 'error', message, stack, metadata, collection }`
(and no `errorDetails` field is ever produced — the code has no
unknown-error fallback branch). -/
theorem logError_entry_shape (collection : String) (error : JsError)
    (metadata : Option Doc) (now : Nat) (m st : String)
    (hm : error.message? = some m) (hs : error.stack? = some st) :
    logError collection error metadata now =
      ServiceLogEntry.mk now (some "error") (some m) (some st) none metadata
        collection := by
  unfold logError
  rw [hm, hs]

/-- Witness for `logError_entry_shape` at a concrete error value. -/
theorem logError_entry_shape_witness :
    logError "error-logs"
        (JsError.mk (some "Test error") (some "stack-trace"))
        (some [("context", JVal.str "test")]) 1700 =
      ServiceLogEntry.mk 1700 (some "error") (some "Test error")
        (some "stack-trace") none (some [("context", JVal.str "test")])
        "error-logs" :=
  logError_entry_shape "error-logs"
    (JsError.mk (some "Test error") (some "stack-trace"))
    (some [("context", JVal.str "test")]) 1700 "Test error" "stack-trace"
    rfl rfl

/-- Counterexample to C9 as stated: for an error value exposing
neither `message` nor `stack`, the code still copies the (absent)
attributes — the entry's message is `undefined`, not
"An unknown error occurred", and no `errorDetails` debug rendering is
attached, contrary to the claimed fallback. -/
theorem logError_no_unknown_fallback_counterexample :
    logError "app-logs" (JsError.mk none none) none 0 ≠
      logErrorSpec "app-logs" (JsError.mk none none) none 0
    ∧ (logError "app-logs" (JsError.mk none none) none 0).message ≠
        some "An unknown error occurred"
    ∧ (logError "app-logs" (JsError.mk none none) none 0).errorDetails =
        none := by
  decide

/-- C3: on a whole-batch transient flush failure (any error other
than a bulk-write partial failure), the per-collection retry counter
and `totalRetries` each grow by exactly one — independent of how many
entries failed — and the failed entries are prepended onto the live
collection batch in their original order, with their estimated sizes
added back onto that batch's `memorySize`; no database effect is
emitted. -/
theorem transient_failure_retry_accounting (name : String)
    (failedEntries : List Doc) (e : FlushOutcome) (dlqOk : Bool) (now : Nat)
    (s : BMState) (b : CollectionBatch)
    (he : e = FlushOutcome.dbUnavailable ∨ e = FlushOutcome.otherError)
    (hfind : mapFind s.batches name = some b) :
    mapFind (handleFlushError name failedEntries e dlqOk now s).1.retries
        name = some ((mapFind s.retries name).getD 0 + 1)
    ∧ (handleFlushError name failedEntries e dlqOk now s).1.metrics.totalRetries
        = s.metrics.totalRetries + 1
    ∧ mapFind (handleFlushError name failedEntries e dlqOk now s).1.batches
        name =
        some
          (CollectionBatch.mk (failedEntries ++ b.entries) b.lastFlush
            (b.memorySize + (failedEntries.map estimateEntrySize).sum))
    ∧ (handleFlushError name failedEntries e dlqOk now s).2 = [] := by
  have hshape : handleFlushError name failedEntries e dlqOk now s =
      ({ s with
          retries := mapSet s.retries name
            ((mapFind s.retries name).getD 0 + 1)
          metrics :=
            { s.metrics with totalRetries := s.metrics.totalRetries + 1 }
          batches := mapUpdate s.batches name (fun liveBatch =>
            { liveBatch with
                entries := failedEntries ++ liveBatch.entries
                memorySize := liveBatch.memorySize +
                  (failedEntries.map estimateEntrySize).sum }) }, []) := by
    rcases he with h | h <;> subst h <;> rfl
  rw [hshape]
  refine ⟨mapFind_mapSet_self _ _ _, rfl, ?_, rfl⟩
  exact mapFind_mapUpdate_self _ _ _ _ hfind

/-- Witness for `transient_failure_retry_accounting`: one transient
failure of a two-entry batch against a live batch already holding one
entry bumps both counters by one and prepends the two entries. -/
theorem transient_failure_retry_accounting_witness :
    mapFind
        (handleFlushError "logs"
          [[("message", JVal.str "a")], [("message", JVal.str "b")]]
          FlushOutcome.otherError true 7
          (BMState.mk
            [("logs", CollectionBatch.mk [[("message", JVal.str "c")]] 3 46)]
            [] [] (BatchMetrics.mk 3 0 1 0 0 none 46 1) false)).1.retries
        "logs" = some 1
    ∧ (handleFlushError "logs"
          [[("message", JVal.str "a")], [("message", JVal.str "b")]]
          FlushOutcome.otherError true 7
          (BMState.mk
            [("logs", CollectionBatch.mk [[("message", JVal.str "c")]] 3 46)]
            [] [] (BatchMetrics.mk 3 0 1 0 0 none 46 1) false)).1.metrics.totalRetries = 1
    ∧ mapFind
        (handleFlushError "logs"
          [[("message", JVal.str "a")], [("message", JVal.str "b")]]
          FlushOutcome.otherError true 7
          (BMState.mk
            [("logs", CollectionBatch.mk [[("message", JVal.str "c")]] 3 46)]
            [] [] (BatchMetrics.mk 3 0 1 0 0 none 46 1) false)).1.batches
        "logs" =
        some
          (CollectionBatch.mk
            [[("message", JVal.str "a")], [("message", JVal.str "b")],
              [("message", JVal.str "c")]]
            3
            (46 +
              ((([[("message", JVal.str "a")], [("message", JVal.str "b")]] :
                List Doc).map estimateEntrySize).sum))) := by
  have h := transient_failure_retry_accounting "logs"
    [[("message", JVal.str "a")], [("message", JVal.str "b")]]
    FlushOutcome.otherError true 7
    (BMState.mk
      [("logs", CollectionBatch.mk [[("message", JVal.str "c")]] 3 46)]
      [] [] (BatchMetrics.mk 3 0 1 0 0 none 46 1) false)
    (CollectionBatch.mk [[("message", JVal.str "c")]] 3 46)
    (Or.inr rfl) (by decide)
  exact ⟨h.1, h.2.1, h.2.2.1⟩

/-- C4: on a bulk-write partial failure, exactly the entries at the
reported `writeErrors` indices are wrapped as
`{ originalLog, errorDetails, failedAt, sourceCollection }` records
and bulk-inserted unordered into `<collection>_dlq`; the state is
unchanged (nothing is re-queued or retried, and a DLQ-insert failure
only adds a critical log before the records are dropped); when no
index hits, no DLQ effect is emitted at all. -/
theorem bulk_write_dlq_routing (name : String) (failedEntries : List Doc)
    (we : List WriteErr) (dlqOk : Bool) (now : Nat) (s : BMState) :
    (handleFlushError name failedEntries (FlushOutcome.bulkWriteError we)
        dlqOk now s).1 = s
    ∧ (dlqRecordsSpec name failedEntries (we.map (fun x => x.index)) now ≠ [] →
        (handleFlushError name failedEntries (FlushOutcome.bulkWriteError we)
            dlqOk now s).2 =
          Effect.dbInsertManyDlq (name ++ "_dlq")
              (dlqRecordsSpec name failedEntries (we.map (fun x => x.index))
                now) false ::
            (if dlqOk then [] else [Effect.logCritical name]))
    ∧ (dlqRecordsSpec name failedEntries (we.map (fun x => x.index)) now = [] →
        (handleFlushError name failedEntries (FlushOutcome.bulkWriteError we)
            dlqOk now s).2 = []) := by
  have hred : handleFlushError name failedEntries
      (FlushOutcome.bulkWriteError we) dlqOk now s =
      (if 0 <
          ((failedEntries.enum.filter
              (fun p => ((we.map (fun e => e.index)).contains p.1))).map
            (fun p =>
              ({ originalLog := p.2
                 errorDetailsMessage :=
                   "Bulk write operation failed for this log entry."
                 failedAt := now
                 sourceCollection := name } : DlqRecord))).length then
        sendToDlq name
          ((failedEntries.enum.filter
              (fun p => ((we.map (fun e => e.index)).contains p.1))).map
            (fun p =>
              ({ originalLog := p.2
                 errorDetailsMessage :=
                   "Bulk write operation failed for this log entry."
                 failedAt := now
                 sourceCollection := name } : DlqRecord))) dlqOk s
      else (s, [])) := rfl
  have hspec := dlqEntries_eq_spec name failedEntries
    (we.map (fun x => x.index)) now
  rw [hspec] at hred
  refine ⟨?_, ?_, ?_⟩
  · rw [hred]
    split
    · simp [sendToDlq]
    · rfl
  · intro hne
    rw [hred, if_pos (by simpa [List.length_pos] using hne)]
    rfl
  · intro hnil
    rw [hred, hnil]
    rfl

/-- Witness for `bulk_write_dlq_routing`: indices {0, 2} of a
three-entry batch are wrapped and sent to `logs_dlq`; index 1 is left
alone, and the state is untouched. -/
theorem bulk_write_dlq_routing_witness :
    (handleFlushError "logs"
        [[("m", JVal.str "a")], [("m", JVal.str "b")], [("m", JVal.str "c")]]
        (FlushOutcome.bulkWriteError [WriteErr.mk 0, WriteErr.mk 2]) true 9
        (BMState.mk [] [] [] (BatchMetrics.mk 0 0 1 0 0 none 0 0) false)).1 =
      BMState.mk [] [] [] (BatchMetrics.mk 0 0 1 0 0 none 0 0) false
    ∧ (handleFlushError "logs"
        [[("m", JVal.str "a")], [("m", JVal.str "b")], [("m", JVal.str "c")]]
        (FlushOutcome.bulkWriteError [WriteErr.mk 0, WriteErr.mk 2]) true 9
        (BMState.mk [] [] [] (BatchMetrics.mk 0 0 1 0 0 none 0 0) false)).2 =
      [Effect.dbInsertManyDlq "logs_dlq"
        [DlqRecord.mk [("m", JVal.str "a")]
            "Bulk write operation failed for this log entry." 9 "logs",
         DlqRecord.mk [("m", JVal.str "c")]
            "Bulk write operation failed for this log entry." 9 "logs"]
        false] := by
  have h := bulk_write_dlq_routing "logs"
    [[("m", JVal.str "a")], [("m", JVal.str "b")], [("m", JVal.str "c")]]
    [WriteErr.mk 0, WriteErr.mk 2] true 9
    (BMState.mk [] [] [] (BatchMetrics.mk 0 0 1 0 0 none 0 0) false)
  refine ⟨h.1, ?_⟩
  have h2 := h.2.1 (by decide)
  rw [h2]
  decide

/-- C10: a successful flush hands the bulk insert exactly the captured
entries with `_batchId` and `_retryCount` removed, in the batch's
insertion order; stripping removes exactly those two keys and leaves
every other field (value and relative order) unchanged. -/
theorem flush_strips_bookkeeping_fields (dlqOk : Bool) (now : Nat)
    (s : BMState) (name : String) (b : CollectionBatch)
    (hgate : flushGate false s name = some b) :
    (flushCollection false FlushOutcome.success dlqOk now s name).2 =
      [Effect.dbInsertMany name (b.entries.map stripBatchFields) false]
    ∧ (∀ d : Doc,
        getField (stripBatchFields d) "_batchId" = none
        ∧ getField (stripBatchFields d) "_retryCount" = none
        ∧ (∀ k, k ≠ "_batchId" → k ≠ "_retryCount" →
            getField (stripBatchFields d) k = getField d k)
        ∧ (stripBatchFields d).Sublist d) := by
  constructor
  · unfold flushCollection
    rw [hgate]
    rfl
  · intro d
    exact ⟨getField_stripBatchFields_batchId d,
      getField_stripBatchFields_retryCount d,
      fun k h1 h2 => getField_stripBatchFields_other d k h1 h2,
      stripBatchFields_sublist d⟩

/-- Witness for `flush_strips_bookkeeping_fields`: flushing a batch of
one entry carrying `_batchId` and `_retryCount` emits the entry with
both keys removed and the other fields intact. -/
theorem flush_strips_bookkeeping_fields_witness :
    (flushCollection false FlushOutcome.success true 11
        (BMState.mk
          [("logs",
            CollectionBatch.mk
              [[("message", JVal.str "hi"), ("_batchId", JVal.str "u1"),
                ("_retryCount", JVal.num 0)]] 2 100)]
          [] [] (BatchMetrics.mk 1 0 0 0 0 none 100 1) false)
        "logs").2 =
      [Effect.dbInsertMany "logs" [[("message", JVal.str "hi")]] false]
    ∧ getField
        (stripBatchFields
          [("message", JVal.str "hi"), ("_batchId", JVal.str "u1"),
            ("_retryCount", JVal.num 0)]) "_batchId" = none := by
  have h := flush_strips_bookkeeping_fields true 11
    (BMState.mk
      [("logs",
        CollectionBatch.mk
          [[("message", JVal.str "hi"), ("_batchId", JVal.str "u1"),
            ("_retryCount", JVal.num 0)]] 2 100)]
      [] [] (BatchMetrics.mk 1 0 0 0 0 none 100 1) false)
    "logs"
    (CollectionBatch.mk
      [[("message", JVal.str "hi"), ("_batchId", JVal.str "u1"),
        ("_retryCount", JVal.num 0)]] 2 100)
    (by decide)
  refine ⟨?_, (h.2 _).1⟩
  rw [h.1]
  decide

/-- C2: after staging a submit, a batch whose length has reached
exactly `batchSize` triggers a flush; a batch left at `batchSize - 1`
does not (when total staged memory is below `maxMemoryUsage`); a
total staged memory at or above `maxMemoryUsage` triggers a flush
regardless of the batch length; and a fired trigger makes `addToBatch`
invoke `flushCollection` on that entry's resolved collection. -/
theorem flush_trigger_boundaries (cfg : BMConfig) (circuitOpen : Bool)
    (outcome : FlushOutcome) (dlqOk : Bool) (s : BMState) (entry : Doc)
    (uuid : String) (now : Nat) (b1 : CollectionBatch)
    (hfind : mapFind (addToBatchStage cfg s entry uuid now).batches
        (resolveCollection cfg entry) = some b1) :
    (b1.entries.length = cfg.batchSize →
      addToBatchTriggers cfg (addToBatchStage cfg s entry uuid now)
        (resolveCollection cfg entry) = true)
    ∧ (b1.entries.length + 1 = cfg.batchSize →
        sumMemory (addToBatchStage cfg s entry uuid now).batches <
          cfg.maxMemoryUsage →
        addToBatchTriggers cfg (addToBatchStage cfg s entry uuid now)
          (resolveCollection cfg entry) = false)
    ∧ (cfg.maxMemoryUsage ≤
          sumMemory (addToBatchStage cfg s entry uuid now).batches →
        addToBatchTriggers cfg (addToBatchStage cfg s entry uuid now)
          (resolveCollection cfg entry) = true)
    ∧ (s.isShuttingDown = false →
        addToBatchTriggers cfg (addToBatchStage cfg s entry uuid now)
          (resolveCollection cfg entry) = true →
        addToBatch cfg circuitOpen outcome dlqOk s entry uuid now =
          flushCollection circuitOpen outcome dlqOk now
            (addToBatchStage cfg s entry uuid now)
            (resolveCollection cfg entry)) := by
  refine ⟨?_, ?_, ?_, ?_⟩
  · intro hlen
    unfold addToBatchTriggers
    rw [hfind]
    simp [hlen]
  · intro hlen hmem
    unfold addToBatchTriggers shouldFlushDueToMemory
    rw [hfind]
    have h1 : ¬(cfg.batchSize ≤ b1.entries.length) := by omega
    have h2 : ¬(cfg.maxMemoryUsage ≤
        sumMemory (addToBatchStage cfg s entry uuid now).batches) := by omega
    simp [h1, h2]
  · intro hmem
    unfold addToBatchTriggers shouldFlushDueToMemory
    rw [hfind]
    simp [hmem]
  · intro hsd htrig
    unfold addToBatch
    rw [hsd]
    simp only [Bool.false_eq_true, if_false, htrig, if_true]

/-- Witness for `flush_trigger_boundaries`: with `batchSize = 2`, the
second entry staged into `logs` fires the trigger; with
`batchSize = 3` and ample memory the same submit does not; with a
1-byte memory cap it fires regardless of length. -/
theorem flush_trigger_boundaries_witness :
    addToBatchTriggers (BMConfig.mk 2 5000 104857600 none)
        (addToBatchStage (BMConfig.mk 2 5000 104857600 none)
          (BMState.mk
            [("logs",
              CollectionBatch.mk [[("message", JVal.str "a")]] 5
                (estimateEntrySize [("message", JVal.str "a")]))]
            [] [] (BatchMetrics.mk 1 0 0 0 0 none 0 1) false)
          [("message", JVal.str "b")] "u2" 9)
        "logs" = true
    ∧ addToBatchTriggers (BMConfig.mk 3 5000 104857600 none)
        (addToBatchStage (BMConfig.mk 3 5000 104857600 none)
          (BMState.mk
            [("logs",
              CollectionBatch.mk [[("message", JVal.str "a")]] 5
                (estimateEntrySize [("message", JVal.str "a")]))]
            [] [] (BatchMetrics.mk 1 0 0 0 0 none 0 1) false)
          [("message", JVal.str "b")] "u2" 9)
        "logs" = false
    ∧ addToBatchTriggers (BMConfig.mk 500 5000 1 none)
        (addToBatchStage (BMConfig.mk 500 5000 1 none)
          (BMState.mk
            [("logs",
              CollectionBatch.mk [[("message", JVal.str "a")]] 5
                (estimateEntrySize [("message", JVal.str "a")]))]
            [] [] (BatchMetrics.mk 1 0 0 0 0 none 0 1) false)
          [("message", JVal.str "b")] "u2" 9)
        "logs" = true := by
  refine ⟨?_, ?_, ?_⟩
  · exact (flush_trigger_boundaries (BMConfig.mk 2 5000 104857600 none)
      false FlushOutcome.success true
      (BMState.mk
        [("logs",
          CollectionBatch.mk [[("message", JVal.str "a")]] 5
            (estimateEntrySize [("message", JVal.str "a")]))]
        [] [] (BatchMetrics.mk 1 0 0 0 0 none 0 1) false)
      [("message", JVal.str "b")] "u2" 9
      (CollectionBatch.mk
        [[("message", JVal.str "a")],
          [("message", JVal.str "b"), ("_batchId", JVal.str "u2")]] 5
        (estimateEntrySize [("message", JVal.str "a")] +
          estimateEntrySize
            [("message", JVal.str "b"), ("_batchId", JVal.str "u2")]))
      (by decide)).1 (by decide)
  · exact (flush_trigger_boundaries (BMConfig.mk 3 5000 104857600 none)
      false FlushOutcome.success true
      (BMState.mk
        [("logs",
          CollectionBatch.mk [[("message", JVal.str "a")]] 5
            (estimateEntrySize [("message", JVal.str "a")]))]
        [] [] (BatchMetrics.mk 1 0 0 0 0 none 0 1) false)
      [("message", JVal.str "b")] "u2" 9
      (CollectionBatch.mk
        [[("message", JVal.str "a")],
          [("message", JVal.str "b"), ("_batchId", JVal.str "u2")]] 5
        (estimateEntrySize [("message", JVal.str "a")] +
          estimateEntrySize
            [("message", JVal.str "b"), ("_batchId", JVal.str "u2")]))
      (by decide)).2.1 (by decide) (by decide)
  · exact (flush_trigger_boundaries (BMConfig.mk 500 5000 1 none)
      false FlushOutcome.success true
      (BMState.mk
        [("logs",
          CollectionBatch.mk [[("message", JVal.str "a")]] 5
            (estimateEntrySize [("message", JVal.str "a")]))]
        [] [] (BatchMetrics.mk 1 0 0 0 0 none 0 1) false)
      [("message", JVal.str "b")] "u2" 9
      (CollectionBatch.mk
        [[("message", JVal.str "a")],
          [("message", JVal.str "b"), ("_batchId", JVal.str "u2")]] 5
        (estimateEntrySize [("message", JVal.str "a")] +
          estimateEntrySize
            [("message", JVal.str "b"), ("_batchId", JVal.str "u2")]))
      (by decide)).2.2.1 (by decide)

/-- C1: when a flush starts on a non-empty batch with the circuit
closed and no flush in progress for that collection, the gate captures
exactly the live batch, the swap installs a fresh batch with empty
entries, `memorySize` 0 and `lastFlush = now`; every sequence of
submits landing after the swap is staged into the fresh batch only
(the live entries are then exactly the routed post-swap entries), the
flush still bulk-inserts exactly the captured entries, and a post-swap
submit with a fresh `_batchId` is never among the captured entries. -/
theorem atomic_swap_safety (cfg : BMConfig) (dlqOk : Bool) (now now2 : Nat)
    (s : BMState) (name : String) (b : CollectionBatch)
    (hflush : s.flushingCollections.contains name = false)
    (hfind : mapFind s.batches name = some b)
    (hne : b.entries ≠ []) :
    flushGate false s name = some b
    ∧ mapFind (flushSwapStep now s name).batches name =
        some (CollectionBatch.mk [] now 0)
    ∧ (∀ subs : List (Doc × String × Nat),
        (∃ lf ms,
          mapFind (applySubmits cfg subs (flushSwapStep now s name)).batches
            name =
            some (CollectionBatch.mk (routedEntries cfg name subs) lf ms))
        ∧ (flushFinish FlushOutcome.success dlqOk now2
            (applySubmits cfg subs (flushSwapStep now s name)) name
            b.entries).2 =
          [Effect.dbInsertMany name (b.entries.map stripBatchFields) false]
        ∧ (∀ p ∈ subs,
            (∀ d ∈ b.entries, batchIdOf d ≠ some (JVal.str p.2.1)) →
            setField p.1 "_batchId" (JVal.str p.2.1) ∉ b.entries)) := by
  have hswap : mapFind (flushSwapStep now s name).batches name =
      some (CollectionBatch.mk [] now 0) := by
    simpa [flushSwapStep] using
      mapFind_mapSet_self s.batches name (CollectionBatch.mk [] now 0)
  refine ⟨?_, hswap, ?_⟩
  · unfold flushGate
    rw [hflush]
    simp only [Bool.false_eq_true, if_false]
    rw [hfind]
    simp [List.length_eq_zero, hne]
  · intro subs
    refine ⟨?_, rfl, ?_⟩
    · obtain ⟨lf, ms, h⟩ := applySubmits_find cfg subs
        (flushSwapStep now s name) name (CollectionBatch.mk [] now 0) hswap
      exact ⟨lf, ms, by simpa using h⟩
    · intro p hp hfreshp hmem
      exact hfreshp _ hmem (batchIdOf_setField p.1 p.2.1)

/-- Witness for `atomic_swap_safety`: a flush starting on a one-entry
`logs` batch captures it, installs the fresh batch, a post-swap submit
lands only in the fresh batch, the flush still inserts only the
captured entry, and the post-swap entry (fresh uuid) is not part of
the captured batch. -/
theorem atomic_swap_safety_witness :
    flushGate false
        (BMState.mk
          [("logs",
            CollectionBatch.mk
              [[("message", JVal.str "old"), ("_batchId", JVal.str "u1")]] 2
              40)]
          [] [] (BatchMetrics.mk 1 0 0 0 0 none 40 1) false)
        "logs" =
      some
        (CollectionBatch.mk
          [[("message", JVal.str "old"), ("_batchId", JVal.str "u1")]] 2 40)
    ∧ mapFind
        (flushSwapStep 20
          (BMState.mk
            [("logs",
              CollectionBatch.mk
                [[("message", JVal.str "old"), ("_batchId", JVal.str "u1")]]
                2 40)]
            [] [] (BatchMetrics.mk 1 0 0 0 0 none 40 1) false)
          "logs").batches "logs" = some (CollectionBatch.mk [] 20 0)
    ∧ (∃ lf ms,
        mapFind
          (applySubmits (BMConfig.mk 500 5000 104857600 none)
            [([("message", JVal.str "new")], "u2", 21)]
            (flushSwapStep 20
              (BMState.mk
                [("logs",
                  CollectionBatch.mk
                    [[("message", JVal.str "old"),
                      ("_batchId", JVal.str "u1")]] 2 40)]
                [] [] (BatchMetrics.mk 1 0 0 0 0 none 40 1) false)
              "logs")).batches "logs" =
          some
            (CollectionBatch.mk
              (routedEntries (BMConfig.mk 500 5000 104857600 none) "logs"
                [([("message", JVal.str "new")], "u2", 21)]) lf ms))
    ∧ (flushFinish FlushOutcome.success true 22
        (applySubmits (BMConfig.mk 500 5000 104857600 none)
          [([("message", JVal.str "new")], "u2", 21)]
          (flushSwapStep 20
            (BMState.mk
              [("logs",
                CollectionBatch.mk
                  [[("message", JVal.str "old"),
                    ("_batchId", JVal.str "u1")]] 2 40)]
              [] [] (BatchMetrics.mk 1 0 0 0 0 none 40 1) false)
            "logs"))
        "logs"
        [[("message", JVal.str "old"), ("_batchId", JVal.str "u1")]]).2 =
      [Effect.dbInsertMany "logs" [[("message", JVal.str "old")]] false] := by
  have h := atomic_swap_safety (BMConfig.mk 500 5000 104857600 none) true
    20 22
    (BMState.mk
      [("logs",
        CollectionBatch.mk
          [[("message", JVal.str "old"), ("_batchId", JVal.str "u1")]] 2 40)]
      [] [] (BatchMetrics.mk 1 0 0 0 0 none 40 1) false)
    "logs"
    (CollectionBatch.mk
      [[("message", JVal.str "old"), ("_batchId", JVal.str "u1")]] 2 40)
    (by decide) (by decide) (by decide)
  have h3 := h.2.2 [([("message", JVal.str "new")], "u2", 21)]
  refine ⟨h.1, h.2.1, h3.1, ?_⟩
  rw [h3.2.1]
  decide

/-- C6: the per-batch memory invariant — each batch's `memorySize`
equals the sum of its entries' estimated sizes — is preserved by the
staging step of `addToBatch`, by `flushCollection` (atomic swap,
success, DLQ routing and transient-failure re-prepend alike), and
under the invariant every `getMetrics` result reports
`currentMemoryUsage` equal to the total estimated size of all staged
entries. -/
theorem memory_accounting_invariant :
    (∀ (cfg : BMConfig) (s : BMState) (entry : Doc) (uuid : String)
        (now : Nat), BatchSizeInv s →
        BatchSizeInv (addToBatchStage cfg s entry uuid now))
    ∧ (∀ (circuitOpen : Bool) (outcome : FlushOutcome) (dlqOk : Bool)
        (now : Nat) (s : BMState) (name : String), BatchSizeInv s →
        BatchSizeInv (flushCollection circuitOpen outcome dlqOk now s name).1)
    ∧ (∀ s : BMState, BatchSizeInv s →
        (getMetrics s).currentMemoryUsage = totalEstimatedSize s.batches) :=
  ⟨fun cfg s entry uuid now h =>
      batchSizeInv_addToBatchStage cfg s entry uuid now h,
   fun circuitOpen outcome dlqOk now s name h =>
      batchSizeInv_flushCollection circuitOpen outcome dlqOk now s name h,
   fun s h => sumMemory_eq_totalEstimatedSize s.batches h⟩

/-- Witness for `memory_accounting_invariant` at a concrete state
holding one staged entry: staging another entry preserves the
invariant, flushing preserves it, and `getMetrics` reports the total
estimated size. -/
theorem memory_accounting_invariant_witness :
    BatchSizeInv
      (addToBatchStage (BMConfig.mk 500 5000 104857600 none)
        (BMState.mk
          [("logs",
            CollectionBatch.mk [[("message", JVal.str "c")]] 3
              (estimateEntrySize [("message", JVal.str "c")]))]
          [] [] (BatchMetrics.mk 1 0 0 0 0 none 0 1) false)
        [("message", JVal.str "d")] "u3" 4)
    ∧ BatchSizeInv
        (flushCollection false FlushOutcome.success true 5
          (BMState.mk
            [("logs",
              CollectionBatch.mk [[("message", JVal.str "c")]] 3
                (estimateEntrySize [("message", JVal.str "c")]))]
            [] [] (BatchMetrics.mk 1 0 0 0 0 none 0 1) false)
          "logs").1
    ∧ (getMetrics
        (BMState.mk
          [("logs",
            CollectionBatch.mk [[("message", JVal.str "c")]] 3
              (estimateEntrySize [("message", JVal.str "c")]))]
          [] [] (BatchMetrics.mk 1 0 0 0 0 none 0 1) false)).currentMemoryUsage =
      totalEstimatedSize
        [("logs",
          CollectionBatch.mk [[("message", JVal.str "c")]] 3
            (estimateEntrySize [("message", JVal.str "c")]))] :=
  ⟨memory_accounting_invariant.1 (BMConfig.mk 500 5000 104857600 none)
      (BMState.mk
        [("logs",
          CollectionBatch.mk [[("message", JVal.str "c")]] 3
            (estimateEntrySize [("message", JVal.str "c")]))]
        [] [] (BatchMetrics.mk 1 0 0 0 0 none 0 1) false)
      [("message", JVal.str "d")] "u3" 4
      (by simp only [BatchSizeInv]; decide),
   memory_accounting_invariant.2.1 false FlushOutcome.success true 5
      (BMState.mk
        [("logs",
          CollectionBatch.mk [[("message", JVal.str "c")]] 3
            (estimateEntrySize [("message", JVal.str "c")]))]
        [] [] (BatchMetrics.mk 1 0 0 0 0 none 0 1) false)
      "logs" (by simp only [BatchSizeInv]; decide),
   memory_accounting_invariant.2.2
      (BMState.mk
        [("logs",
          CollectionBatch.mk [[("message", JVal.str "c")]] 3
            (estimateEntrySize [("message", JVal.str "c")]))]
        [] [] (BatchMetrics.mk 1 0 0 0 0 none 0 1) false)
      (by simp only [BatchSizeInv]; decide)⟩

/-- C7: on a quiescent state (no flush in progress) with
duplicate-free batch keys, a `flushAll` whose per-collection outcomes
are all terminal (success or bulk-write partial failure) leaves every
collection batch empty; an immediately following `flushAll` — with any
outcomes — returns the state unchanged and performs no database
operation. -/
theorem flushAll_drains_and_idempotent
    (outcomes outcomes2 : String → FlushOutcome) (dlqOk dlqOk2 : Bool)
    (now now2 : Nat) (s : BMState)
    (hq : s.flushingCollections = [])
    (hnd : (s.batches.map (fun kv => kv.1)).Nodup)
    (hterm : ∀ n, TerminalOutcome (outcomes n)) :
    (∀ kv ∈ (flushAll false outcomes dlqOk now s).1.batches,
      kv.2.entries = [])
    ∧ flushAll false outcomes2 dlqOk2 now2
        (flushAll false outcomes dlqOk now s).1 =
      ((flushAll false outcomes dlqOk now s).1, []) := by
  obtain ⟨ha, hb, hc, hd⟩ := flushList_terminal outcomes dlqOk now hterm
    (s.batches.map (fun kv => kv.1)) s hq
  have hempty : ∀ kv ∈ (flushAll false outcomes dlqOk now s).1.batches,
      kv.2.entries = [] := by
    intro kv hkv
    have hndf : (((flushAll false outcomes dlqOk now s).1.batches.map
        (fun kv => kv.1)).Nodup) := by
      rw [show (flushAll false outcomes dlqOk now s).1 =
          (flushList false outcomes dlqOk now s
            (s.batches.map (fun kv => kv.1))).1 from rfl]
      rw [hb]
      exact hnd
    have hfi := mapFind_of_mem_nodup _ kv hkv hndf
    have hmemk : kv.1 ∈ s.batches.map (fun kv => kv.1) := by
      have : kv.1 ∈ (flushAll false outcomes dlqOk now s).1.batches.map
          (fun kv => kv.1) := List.mem_map_of_mem (fun kv => kv.1) hkv
      rw [show (flushAll false outcomes dlqOk now s).1 =
          (flushList false outcomes dlqOk now s
            (s.batches.map (fun kv => kv.1))).1 from rfl] at this
      rw [hb] at this
      exact this
    rcases hd kv.1 hmemk with hnone | ⟨b, hsome, hbent⟩
    · rw [show (flushAll false outcomes dlqOk now s).1 =
          (flushList false outcomes dlqOk now s
            (s.batches.map (fun kv => kv.1))).1 from rfl] at hfi
      rw [hnone] at hfi
      exact absurd hfi (by simp)
    · rw [show (flushAll false outcomes dlqOk now s).1 =
          (flushList false outcomes dlqOk now s
            (s.batches.map (fun kv => kv.1))).1 from rfl] at hfi
      rw [hsome] at hfi
      have : b = kv.2 := by injection hfi
      rw [← this]
      exact hbent
  refine ⟨hempty, ?_⟩
  exact flushList_all_empty outcomes2 dlqOk2 now2 _ _ hempty

/-- Witness for `flushAll_drains_and_idempotent`: flushing a state
with one non-empty `logs` batch (all outcomes successful) empties it,
and a second `flushAll` is a no-op emitting no database effect. -/
theorem flushAll_drains_and_idempotent_witness :
    (∀ kv ∈ (flushAll false (fun _ => FlushOutcome.success) true 30
        (BMState.mk
          [("logs", CollectionBatch.mk [[("message", JVal.str "e")]] 1 42)]
          [] [] (BatchMetrics.mk 1 0 0 0 0 none 42 1) false)).1.batches,
      kv.2.entries = [])
    ∧ flushAll false (fun _ => FlushOutcome.otherError) false 31
        (flushAll false (fun _ => FlushOutcome.success) true 30
          (BMState.mk
            [("logs", CollectionBatch.mk [[("message", JVal.str "e")]] 1 42)]
            [] [] (BatchMetrics.mk 1 0 0 0 0 none 42 1) false)).1 =
      ((flushAll false (fun _ => FlushOutcome.success) true 30
          (BMState.mk
            [("logs", CollectionBatch.mk [[("message", JVal.str "e")]] 1 42)]
            [] [] (BatchMetrics.mk 1 0 0 0 0 none 42 1) false)).1, []) :=
  flushAll_drains_and_idempotent (fun _ => FlushOutcome.success)
    (fun _ => FlushOutcome.otherError) true false 30 31
    (BMState.mk
      [("logs", CollectionBatch.mk [[("message", JVal.str "e")]] 1 42)]
      [] [] (BatchMetrics.mk 1 0 0 0 0 none 42 1) false)
    (by decide) (by decide) (fun n => Or.inl rfl)

end MongoLogger
